import Mathlib

/-!
# HDD object manager glue (wlan_hdd_object_manager.c)

A shallow embedding of the create / destroy / lookup routines of
`drivers/staging/qcacld-3.0/core/hdd/src/wlan_hdd_object_manager.c`.

Every routine is a pure function from the state it can touch to a result
record holding its return value, the new state and the list of external
calls it made, in program order (the effect trace).

* Pointers are natural numbers, `none` is `NULL`.
* What an external routine returns (allocation results, `QDF_STATUS` values,
  the handle of a freshly created object) is an input of the embedded
  routine, grouped in one record per routine.
* Errno constants, `HDD_SESSION_ID_INVALID` and `qdf_status_to_os_return`
  are declared outside this file; they are fields of `Platform`.
* Diagnostic logging (`hdd_err`, `hdd_debug`) and the field stores into a
  freshly allocated integration record are not tracked.
-/

namespace HddObjmgr

/-! ## Constants of the source file -/

def LOW_2GHZ_FREQ : Nat := 2312

def HIGH_2GHZ_FREQ : Nat := 2732

def LOW_5GHZ_FREQ : Nat := 4912

def HIGH_5GHZ_FREQ : Nat := 6100

/-! ## Types declared outside the file -/

/-- Reference holder identities used by this file. -/
inductive wlan_objmgr_ref_dbgid where
  | WLAN_HDD_ID_OBJ_MGR
  | WLAN_OSIF_ID
  | WLAN_TDLS_NB_ID
  deriving DecidableEq, Repr

/-- Status codes: the three the file names, and any other code. -/
inductive QDF_STATUS where
  | QDF_STATUS_SUCCESS
  | QDF_STATUS_E_INVAL
  | QDF_STATUS_E_NOMEM
  | QDF_STATUS_E_OTHER (code : Nat)
  deriving DecidableEq, Repr

/-- Modelled from the spec: the macro QDF_IS_STATUS_ERROR is declared outside the
file; every status but success is an error, as in the direct test
`status != QDF_STATUS_SUCCESS` of source line 195. -/
def QDF_IS_STATUS_ERROR (status : QDF_STATUS) : Bool :=
  decide (status ≠ QDF_STATUS.QDF_STATUS_SUCCESS)

/-- Peer MLME states: the one the file names, and any other. -/
inductive wlan_peer_state where
  | WLAN_ASSOC_STATE
  | WLAN_PEER_STATE_OTHER (code : Nat)
  deriving DecidableEq, Repr

/-- Values the file takes from headers that are not part of it. -/
structure Platform where
  EINVAL : Int
  ENOMEM : Int
  HDD_SESSION_ID_INVALID : Nat
  qdf_status_to_os_return : QDF_STATUS → Int

/-- The fields of `struct wlan_psoc_host_hal_reg_capabilities_ext` the file
writes; `rest` stands for every other field. -/
structure wlan_psoc_host_hal_reg_capabilities_ext where
  phy_id : Nat
  low_2ghz_chan : Nat
  high_2ghz_chan : Nat
  low_5ghz_chan : Nat
  high_5ghz_chan : Nat
  rest : Nat
  deriving DecidableEq, Repr

/-- The fields of `struct wlan_vdev_create_params` the file fills in. -/
structure wlan_vdev_create_params where
  opmode : Nat
  macaddr : List Nat
  osifp : Option Nat
  deriving DecidableEq, Repr

/-- The slots of `struct hdd_context` the file reads and writes. -/
structure hdd_context where
  psoc : Option Nat
  pdev : Option Nat
  deriving DecidableEq, Repr

/-- The fields of `struct hdd_adapter` the file reads and writes. -/
structure hdd_adapter where
  vdev : Option Nat
  session_id : Nat
  device_mode : Nat
  mac_addr : List Nat
  deriving DecidableEq, Repr

/-! ## Effect trace -/

/-- One external call (or guarded slot access) made by the file. -/
inductive Event where
  | qdf_mem_malloc (res : Option Nat)
  | qdf_mem_free (ptr : Option Nat)
  | QDF_BUG
  | wlan_objmgr_psoc_obj_create (psoc_id : Nat) (res : Option Nat)
  | wlan_objmgr_psoc_try_get_ref (psoc : Nat) (id : wlan_objmgr_ref_dbgid) (status : QDF_STATUS)
  | wlan_objmgr_psoc_obj_delete (psoc : Nat)
  | wlan_objmgr_psoc_release_ref (psoc : Nat) (id : wlan_objmgr_ref_dbgid)
  | wlan_objmgr_print_ref_all_objects_per_psoc (psoc : Nat)
  | cds_get_context (res : Option Nat)
  | wlan_psoc_set_qdf_dev (psoc : Nat) (qdf_ctx : Nat)
  | ucfg_reg_get_hal_reg_cap (psoc : Nat)
  | wlan_objmgr_pdev_obj_create (psoc : Nat) (priv : Nat) (res : Option Nat)
  | wlan_objmgr_pdev_try_get_ref (pdev : Nat) (id : wlan_objmgr_ref_dbgid) (status : QDF_STATUS)
  | target_if_alloc_pdev_tgt_info (pdev : Nat) (status : QDF_STATUS)
  | sme_store_pdev (pdev : Nat)
  | wlan_cfg80211_scan_priv_init (pdev : Nat)
  | os_if_spectral_netlink_init (pdev : Nat)
  | wlan_objmgr_pdev_obj_delete (pdev : Nat)
  | wlan_objmgr_pdev_release_ref (pdev : Nat) (id : wlan_objmgr_ref_dbgid)
  | target_if_free_pdev_tgt_info (pdev : Nat)
  | os_if_spectral_netlink_deinit (pdev : Nat)
  | wlan_cfg80211_scan_priv_deinit (pdev : Nat)
  | wlan_pdev_get_ospriv (pdev : Nat)
  | wlan_pdev_reset_ospriv (pdev : Nat)
  | wlan_cfg80211_tdls_priv_init (os_priv : Nat)
  | wlan_cfg80211_tdls_priv_deinit (os_priv : Nat)
  | wlan_objmgr_vdev_obj_create (pdev : Nat) (params : wlan_vdev_create_params) (res : Option Nat)
  | wlan_objmgr_vdev_try_get_ref (vdev : Nat) (id : wlan_objmgr_ref_dbgid) (status : QDF_STATUS)
  | wlan_vdev_get_id (vdev : Nat)
  | wlan_objmgr_vdev_obj_delete (vdev : Nat)
  | wlan_objmgr_vdev_release_ref (vdev : Nat) (id : wlan_objmgr_ref_dbgid)
  | wlan_vdev_get_ospriv (vdev : Nat)
  | wlan_vdev_reset_ospriv (vdev : Nat)
  | qdf_spin_lock_bh
  | qdf_spin_unlock_bh
  | adapter_vdev_load (vdev : Option Nat)
  | adapter_vdev_store (vdev : Option Nat)
  | adapter_session_id_store (session_id : Nat)
  | wlan_vdev_obj_lock (vdev : Nat)
  | wlan_vdev_obj_unlock (vdev : Nat)
  | wlan_vdev_get_bsspeer (vdev : Nat)
  | wlan_peer_obj_lock (peer : Nat)
  | wlan_peer_obj_unlock (peer : Nat)
  | wlan_peer_mlme_set_state (peer : Nat) (state : wlan_peer_state)
  deriving DecidableEq, Repr

/-! ## Object manager bookkeeping -/

/-- The four object kinds of the hierarchy. -/
inductive obj_kind where
  | psoc
  | pdev
  | vdev
  | peer
  deriving DecidableEq, Repr

/-- One structural object as the file sees it through the object manager
accessors: its handle, whether its delete was requested, the references
that are held on it, its integration record and (for a vdev) its id. -/
structure objmgr_obj where
  kind : obj_kind
  handle : Nat
  logically_deleted : Bool
  refs : List wlan_objmgr_ref_dbgid
  ospriv : Option Nat
  vdev_id : Nat
  deriving DecidableEq, Repr

/-- Apply `f` to the first object with this kind and handle; `none` removes
the object from the pool. -/
def objmgr_modify (k : obj_kind) (h : Nat) (f : objmgr_obj → Option objmgr_obj) :
    List objmgr_obj → List objmgr_obj
  | [] => []
  | e :: es =>
    if e.kind = k ∧ e.handle = h then
      match f e with
      | some e2 => e2 :: es
      | none => es
    else e :: objmgr_modify k h f es

/-- The first object with this kind and handle. -/
def objmgr_find (k : obj_kind) (h : Nat) : List objmgr_obj → Option objmgr_obj
  | [] => none
  | e :: es => if e.kind = k ∧ e.handle = h then some e else objmgr_find k h es

/-- Modelled from the spec: the object manager (wlan_objmgr_*_obj_create) is
not part of the file; a successful create adds a structural object that
carries the integration record handed in and holds no reference yet. -/
def objmgr_obj_create (k : obj_kind) (h : Nat) (ospriv : Option Nat) (vdev_id : Nat)
    (objs : List objmgr_obj) : List objmgr_obj :=
  { kind := k, handle := h, logically_deleted := false, refs := [],
    ospriv := ospriv, vdev_id := vdev_id } :: objs

/-- Modelled from the spec: the object manager (wlan_objmgr_*_try_get_ref) is
not part of the file; a successful acquisition increments the count of the
holder. The status itself is an input of the calling routine. -/
def objmgr_get_ref (k : obj_kind) (h : Nat) (id : wlan_objmgr_ref_dbgid)
    (objs : List objmgr_obj) : List objmgr_obj :=
  objmgr_modify k h (fun e => some { e with refs := id :: e.refs }) objs

/-- Modelled from the spec: the object manager (wlan_objmgr_*_obj_delete) is
not part of the file; the object is eligible for destruction only when all
references are released, so a delete destroys an object nobody holds and
otherwise marks it; the comment in hdd_objmgr_create_and_store_vdev relies on
a held reference delaying the physical destroy. -/
def objmgr_obj_delete (k : obj_kind) (h : Nat) (objs : List objmgr_obj) : List objmgr_obj :=
  objmgr_modify k h
    (fun e => if e.refs = [] then none else some { e with logically_deleted := true }) objs

/-- Modelled from the spec: the object manager (wlan_objmgr_*_release_ref) is
not part of the file; a release decrements the count of the holder, and the
last release on an object whose delete was requested destroys it. -/
def objmgr_release_ref (k : obj_kind) (h : Nat) (id : wlan_objmgr_ref_dbgid)
    (objs : List objmgr_obj) : List objmgr_obj :=
  objmgr_modify k h
    (fun e =>
      if e.logically_deleted = true ∧ e.refs.erase id = [] then none
      else some { e with refs := e.refs.erase id }) objs

/-- Modelled from the spec: the accessors wlan_pdev_get_ospriv and
wlan_vdev_get_ospriv are not part of the file; they read the integration
record the object carries. -/
def objmgr_get_ospriv (k : obj_kind) (h : Nat) (objs : List objmgr_obj) : Option Nat :=
  match objmgr_find k h objs with
  | some e => e.ospriv
  | none => none

/-- Modelled from the spec: the accessors wlan_pdev_reset_ospriv and
wlan_vdev_reset_ospriv are not part of the file; they detach the integration
record from the object. -/
def objmgr_reset_ospriv (k : obj_kind) (h : Nat) (objs : List objmgr_obj) : List objmgr_obj :=
  objmgr_modify k h (fun e => some { e with ospriv := none }) objs

/-- Modelled from the spec: the accessor wlan_vdev_get_id is not part of the
file; it reads the integer handle assigned to the Interface at creation. -/
def objmgr_vdev_get_id (h : Nat) (objs : List objmgr_obj) : Nat :=
  match objmgr_find obj_kind.vdev h objs with
  | some e => e.vdev_id
  | none => 0

/-- Everything outside the handle slots that the file can change. -/
structure World where
  objs : List objmgr_obj
  heap : List Nat
  hal_reg_cap : Nat → Option wlan_psoc_host_hal_reg_capabilities_ext
  bsspeer : Nat → Option Nat
  peer_mlme_state : Nat → wlan_peer_state

/-- Result of a routine working on the driver context. -/
structure ctx_result where
  ret : Int
  hdd_ctx : hdd_context
  world : World
  trace : List Event

/-- Result of a routine working on an adapter. -/
structure adapter_result where
  ret : Int
  adapter : hdd_adapter
  world : World
  trace : List Event

/-- Result of the vdev lookup. -/
structure get_vdev_result where
  vdev : Option Nat
  adapter : Option hdd_adapter
  world : World
  trace : List Event

/-- Result of a routine that returns nothing. -/
structure void_result where
  world : World
  trace : List Event

/-- Result of a routine working on a vdev handed in by the caller. -/
structure vdev_result where
  ret : Int
  world : World
  trace : List Event

/-! ## Results of the external calls, one record per routine -/

/-- What the external calls of hdd_objmgr_create_and_store_psoc return. -/
structure psoc_create_inputs where
  wlan_objmgr_psoc_obj_create : Option Nat
  wlan_objmgr_psoc_try_get_ref : QDF_STATUS
  cds_get_context : Option Nat

/-- What the external calls of hdd_objmgr_create_and_store_pdev return. -/
structure pdev_create_inputs where
  qdf_mem_malloc : Option Nat
  wlan_objmgr_pdev_obj_create : Option Nat
  wlan_objmgr_pdev_try_get_ref : QDF_STATUS
  target_if_alloc_pdev_tgt_info : QDF_STATUS

/-- What the external calls of hdd_objmgr_create_and_store_vdev return;
`vdev_id` is the id the object manager assigns to the created vdev. -/
structure vdev_create_inputs where
  qdf_mem_malloc : Option Nat
  wlan_objmgr_vdev_obj_create : Option Nat
  vdev_id : Nat
  wlan_objmgr_vdev_try_get_ref : QDF_STATUS

/-- Result of hdd_init_vdev_os_priv. -/
structure os_priv_result where
  os_priv : Option Nat
  world : World
  trace : List Event

/-! ## The routines -/

/-- Source lines 35-43; called after hdd_ctx->pdev was stored. -/
def hdd_init_pdev_os_priv (pdev : Nat) : List Event :=
  [Event.wlan_cfg80211_scan_priv_init pdev, Event.os_if_spectral_netlink_init pdev]

/-- Source lines 45-49. -/
def hdd_deinit_pdev_os_priv (pdev : Nat) : List Event :=
  [Event.os_if_spectral_netlink_deinit pdev, Event.wlan_cfg80211_scan_priv_deinit pdev]

/-- Source lines 51-66. -/
def hdd_init_vdev_os_priv (malloc : Option Nat) (w : World) : os_priv_result :=
  match malloc with
  | none => { os_priv := none, world := w, trace := [Event.qdf_mem_malloc none] }
  | some os_priv =>
    { os_priv := some os_priv,
      world := { w with heap := os_priv :: w.heap },
      trace := [Event.qdf_mem_malloc (some os_priv),
                Event.wlan_cfg80211_tdls_priv_init os_priv] }

/-- Source lines 68-74. -/
def hdd_deinit_vdev_os_priv (os_priv : Option Nat) (w : World) : void_result :=
  match os_priv with
  | some p =>
    { world := { w with heap := w.heap.erase p },
      trace := [Event.wlan_cfg80211_tdls_priv_deinit p, Event.qdf_mem_free (some p)] }
  | none => { world := w, trace := [] }

/-- Source lines 76-87. -/
def hdd_init_psoc_qdf_ctx (cds_get_context : Option Nat) (psoc : Nat) : List Event :=
  match cds_get_context with
  | none => [Event.cds_get_context none]
  | some qdf_ctx =>
    [Event.cds_get_context (some qdf_ctx), Event.wlan_psoc_set_qdf_dev psoc qdf_ctx]

/-- Source lines 89-115. -/
def hdd_objmgr_create_and_store_psoc (P : Platform) (o : psoc_create_inputs) (w : World)
    (hdd_ctx : hdd_context) (psoc_id : Nat) : ctx_result :=
  match o.wlan_objmgr_psoc_obj_create with
  | none =>
    { ret := -P.ENOMEM, hdd_ctx := hdd_ctx, world := w,
      trace := [Event.wlan_objmgr_psoc_obj_create psoc_id none] }
  | some psoc =>
    let w1 : World := { w with objs := objmgr_obj_create obj_kind.psoc psoc none 0 w.objs }
    let status := o.wlan_objmgr_psoc_try_get_ref
    if QDF_IS_STATUS_ERROR status = true then
      { ret := P.qdf_status_to_os_return status, hdd_ctx := hdd_ctx,
        world := { w1 with objs := objmgr_obj_delete obj_kind.psoc psoc w1.objs },
        trace := [Event.wlan_objmgr_psoc_obj_create psoc_id (some psoc),
                  Event.wlan_objmgr_psoc_try_get_ref psoc
                    wlan_objmgr_ref_dbgid.WLAN_HDD_ID_OBJ_MGR status,
                  Event.QDF_BUG,
                  Event.wlan_objmgr_psoc_obj_delete psoc] }
    else
      { ret := 0, hdd_ctx := { hdd_ctx with psoc := some psoc },
        world :=
          { w1 with
            objs := objmgr_get_ref obj_kind.psoc psoc
                      wlan_objmgr_ref_dbgid.WLAN_HDD_ID_OBJ_MGR w1.objs },
        trace := [Event.wlan_objmgr_psoc_obj_create psoc_id (some psoc),
                  Event.wlan_objmgr_psoc_try_get_ref psoc
                    wlan_objmgr_ref_dbgid.WLAN_HDD_ID_OBJ_MGR status]
                 ++ hdd_init_psoc_qdf_ctx o.cds_get_context psoc }

/-- Source lines 117-134; `obj_delete` is the status of the delete call. -/
def hdd_objmgr_release_and_destroy_psoc (P : Platform) (obj_delete : QDF_STATUS) (w : World)
    (hdd_ctx : hdd_context) : ctx_result :=
  match hdd_ctx.psoc with
  | none =>
    { ret := -P.EINVAL, hdd_ctx := { hdd_ctx with psoc := none }, world := w,
      trace := [Event.QDF_BUG] }
  | some psoc =>
    { ret := P.qdf_status_to_os_return obj_delete,
      hdd_ctx := { hdd_ctx with psoc := none },
      world :=
        { w with
          objs := objmgr_release_ref obj_kind.psoc psoc
                    wlan_objmgr_ref_dbgid.WLAN_HDD_ID_OBJ_MGR
                    (objmgr_obj_delete obj_kind.psoc psoc w.objs) },
      trace := [Event.wlan_objmgr_print_ref_all_objects_per_psoc psoc,
                Event.wlan_objmgr_psoc_obj_delete psoc,
                Event.wlan_objmgr_psoc_release_ref psoc
                  wlan_objmgr_ref_dbgid.WLAN_HDD_ID_OBJ_MGR] }

/-- The five stores of source lines 174-178 into the capability table. -/
def set_reg_cap (c : wlan_psoc_host_hal_reg_capabilities_ext) :
    wlan_psoc_host_hal_reg_capabilities_ext :=
  { c with phy_id := 0, low_2ghz_chan := LOW_2GHZ_FREQ, high_2ghz_chan := HIGH_2GHZ_FREQ,
           low_5ghz_chan := LOW_5GHZ_FREQ, high_5ghz_chan := HIGH_5GHZ_FREQ }

/-- Source lines 149-211. -/
def hdd_objmgr_create_and_store_pdev (P : Platform) (o : pdev_create_inputs) (w : World)
    (hdd_ctx : hdd_context) : ctx_result :=
  match hdd_ctx.psoc with
  | none => { ret := -P.EINVAL, hdd_ctx := hdd_ctx, world := w, trace := [] }
  | some psoc =>
    match o.qdf_mem_malloc with
    | none =>
      { ret := -P.ENOMEM, hdd_ctx := hdd_ctx, world := w,
        trace := [Event.qdf_mem_malloc none] }
    | some priv =>
      let w1 : World := { w with heap := priv :: w.heap }
      match w1.hal_reg_cap psoc with
      | none =>
        -- status = QDF_STATUS_E_INVAL; goto free_priv
        { ret := P.qdf_status_to_os_return QDF_STATUS.QDF_STATUS_E_INVAL,
          hdd_ctx := hdd_ctx,
          world := { w1 with heap := w1.heap.erase priv },
          trace := [Event.qdf_mem_malloc (some priv), Event.ucfg_reg_get_hal_reg_cap psoc,
                    Event.qdf_mem_free (some priv)] }
      | some reg_cap =>
        let w2 : World :=
          { w1 with
            hal_reg_cap := fun p =>
              if p = psoc then some (set_reg_cap reg_cap) else w1.hal_reg_cap p }
        match o.wlan_objmgr_pdev_obj_create with
        | none =>
          -- status = QDF_STATUS_E_NOMEM; goto free_priv
          { ret := P.qdf_status_to_os_return QDF_STATUS.QDF_STATUS_E_NOMEM,
            hdd_ctx := hdd_ctx,
            world := { w2 with heap := w2.heap.erase priv },
            trace := [Event.qdf_mem_malloc (some priv), Event.ucfg_reg_get_hal_reg_cap psoc,
                      Event.wlan_objmgr_pdev_obj_create psoc priv none,
                      Event.qdf_mem_free (some priv)] }
        | some pdev =>
          let w3 : World :=
            { w2 with objs := objmgr_obj_create obj_kind.pdev pdev (some priv) 0 w2.objs }
          let status := o.wlan_objmgr_pdev_try_get_ref
          if QDF_IS_STATUS_ERROR status = true then
            -- QDF_BUG(false); goto pdev_destroy
            let w4 : World := { w3 with objs := objmgr_obj_delete obj_kind.pdev pdev w3.objs }
            { ret := P.qdf_status_to_os_return status,
              hdd_ctx := hdd_ctx,
              world := { w4 with heap := w4.heap.erase priv },
              trace := [Event.qdf_mem_malloc (some priv), Event.ucfg_reg_get_hal_reg_cap psoc,
                        Event.wlan_objmgr_pdev_obj_create psoc priv (some pdev),
                        Event.wlan_objmgr_pdev_try_get_ref pdev
                          wlan_objmgr_ref_dbgid.WLAN_HDD_ID_OBJ_MGR status,
                        Event.QDF_BUG,
                        Event.wlan_objmgr_pdev_obj_delete pdev,
                        Event.qdf_mem_free (some priv)] }
          else
            let w4 : World :=
              { w3 with
                objs := objmgr_get_ref obj_kind.pdev pdev
                          wlan_objmgr_ref_dbgid.WLAN_HDD_ID_OBJ_MGR w3.objs }
            let status2 := o.target_if_alloc_pdev_tgt_info
            if status2 ≠ QDF_STATUS.QDF_STATUS_SUCCESS then
              -- goto pdev_destroy
              let w5 : World :=
                { w4 with objs := objmgr_obj_delete obj_kind.pdev pdev w4.objs }
              { ret := P.qdf_status_to_os_return status2,
                hdd_ctx := hdd_ctx,
                world := { w5 with heap := w5.heap.erase priv },
                trace := [Event.qdf_mem_malloc (some priv),
                          Event.ucfg_reg_get_hal_reg_cap psoc,
                          Event.wlan_objmgr_pdev_obj_create psoc priv (some pdev),
                          Event.wlan_objmgr_pdev_try_get_ref pdev
                            wlan_objmgr_ref_dbgid.WLAN_HDD_ID_OBJ_MGR status,
                          Event.target_if_alloc_pdev_tgt_info pdev status2,
                          Event.wlan_objmgr_pdev_obj_delete pdev,
                          Event.qdf_mem_free (some priv)] }
            else
              { ret := 0,
                hdd_ctx := { hdd_ctx with pdev := some pdev },
                world := w4,
                trace := [Event.qdf_mem_malloc (some priv),
                          Event.ucfg_reg_get_hal_reg_cap psoc,
                          Event.wlan_objmgr_pdev_obj_create psoc priv (some pdev),
                          Event.wlan_objmgr_pdev_try_get_ref pdev
                            wlan_objmgr_ref_dbgid.WLAN_HDD_ID_OBJ_MGR status,
                          Event.target_if_alloc_pdev_tgt_info pdev status2,
                          Event.sme_store_pdev pdev]
                         ++ hdd_init_pdev_os_priv pdev }

/-- Source lines 213-236; `obj_delete` is the status of the delete call. -/
def hdd_objmgr_release_and_destroy_pdev (P : Platform) (obj_delete : QDF_STATUS) (w : World)
    (hdd_ctx : hdd_context) : ctx_result :=
  match hdd_ctx.pdev with
  | none =>
    { ret := -P.EINVAL, hdd_ctx := { hdd_ctx with pdev := none }, world := w,
      trace := [Event.QDF_BUG] }
  | some pdev =>
    let osif_priv := objmgr_get_ospriv obj_kind.pdev pdev w.objs
    let w1 : World := { w with objs := objmgr_reset_ospriv obj_kind.pdev pdev w.objs }
    let heap2 : List Nat :=
      match osif_priv with
      | some p => w1.heap.erase p
      | none => w1.heap
    let w2 : World := { w1 with heap := heap2 }
    { ret := P.qdf_status_to_os_return obj_delete,
      hdd_ctx := { hdd_ctx with pdev := none },
      world :=
        { w2 with
          objs := objmgr_release_ref obj_kind.pdev pdev
                    wlan_objmgr_ref_dbgid.WLAN_HDD_ID_OBJ_MGR
                    (objmgr_obj_delete obj_kind.pdev pdev w2.objs) },
      trace := [Event.target_if_free_pdev_tgt_info pdev]
               ++ hdd_deinit_pdev_os_priv pdev
               ++ [Event.wlan_pdev_get_ospriv pdev,
                   Event.wlan_pdev_reset_ospriv pdev,
                   Event.qdf_mem_free osif_priv,
                   Event.wlan_objmgr_pdev_obj_delete pdev,
                   Event.wlan_objmgr_pdev_release_ref pdev
                     wlan_objmgr_ref_dbgid.WLAN_HDD_ID_OBJ_MGR] }

/-- Source lines 238-298. -/
def hdd_objmgr_create_and_store_vdev (P : Platform) (o : vdev_create_inputs) (w : World)
    (pdev : Option Nat) (adapter : hdd_adapter) : adapter_result :=
  match pdev with
  | none => { ret := -P.EINVAL, adapter := adapter, world := w, trace := [Event.QDF_BUG] }
  | some pdev =>
    let r := hdd_init_vdev_os_priv o.qdf_mem_malloc w
    match r.os_priv with
    | none => { ret := -P.ENOMEM, adapter := adapter, world := r.world, trace := r.trace }
    | some osif_priv =>
      let vdev_params : wlan_vdev_create_params :=
        { opmode := adapter.device_mode, osifp := some osif_priv, macaddr := adapter.mac_addr }
      match o.wlan_objmgr_vdev_obj_create with
      | none =>
        -- errno = -ENOMEM; goto osif_priv_free
        let d := hdd_deinit_vdev_os_priv (some osif_priv) r.world
        { ret := -P.ENOMEM, adapter := adapter, world := d.world,
          trace := r.trace ++ [Event.wlan_objmgr_vdev_obj_create pdev vdev_params none]
                   ++ d.trace }
      | some vdev =>
        let w1 : World :=
          { r.world with
            objs := objmgr_obj_create obj_kind.vdev vdev (some osif_priv) o.vdev_id
                      r.world.objs }
        let status := o.wlan_objmgr_vdev_try_get_ref
        if QDF_IS_STATUS_ERROR status = true then
          -- errno = qdf_status_to_os_return(status); goto vdev_destroy
          let w2 : World := { w1 with objs := objmgr_obj_delete obj_kind.vdev vdev w1.objs }
          let d := hdd_deinit_vdev_os_priv (some osif_priv) w2
          { ret := P.qdf_status_to_os_return status, adapter := adapter, world := d.world,
            trace := r.trace
                     ++ [Event.wlan_objmgr_vdev_obj_create pdev vdev_params (some vdev),
                         Event.wlan_objmgr_vdev_try_get_ref vdev
                           wlan_objmgr_ref_dbgid.WLAN_HDD_ID_OBJ_MGR status,
                         Event.wlan_objmgr_vdev_obj_delete vdev]
                     ++ d.trace }
        else
          let w2 : World :=
            { w1 with
              objs := objmgr_get_ref obj_kind.vdev vdev
                        wlan_objmgr_ref_dbgid.WLAN_HDD_ID_OBJ_MGR w1.objs }
          let id := objmgr_vdev_get_id vdev w2.objs
          { ret := 0,
            adapter := { adapter with vdev := some vdev, session_id := id },
            world := w2,
            trace := r.trace
                     ++ [Event.wlan_objmgr_vdev_obj_create pdev vdev_params (some vdev),
                         Event.wlan_objmgr_vdev_try_get_ref vdev
                           wlan_objmgr_ref_dbgid.WLAN_HDD_ID_OBJ_MGR status,
                         Event.qdf_spin_lock_bh,
                         Event.adapter_vdev_store (some vdev),
                         Event.wlan_vdev_get_id vdev,
                         Event.adapter_session_id_store id,
                         Event.qdf_spin_unlock_bh] }

/-- Source lines 300-326; `obj_delete` is the status of the delete call. -/
def hdd_objmgr_release_and_destroy_vdev (P : Platform) (obj_delete : QDF_STATUS) (w : World)
    (adapter : hdd_adapter) : adapter_result :=
  let locked : List Event :=
    [Event.qdf_spin_lock_bh,
     Event.adapter_vdev_load adapter.vdev,
     Event.adapter_vdev_store none,
     Event.adapter_session_id_store P.HDD_SESSION_ID_INVALID,
     Event.qdf_spin_unlock_bh]
  let adapter1 : hdd_adapter :=
    { adapter with vdev := none, session_id := P.HDD_SESSION_ID_INVALID }
  match adapter.vdev with
  | none =>
    { ret := -P.EINVAL, adapter := adapter1, world := w, trace := locked ++ [Event.QDF_BUG] }
  | some vdev =>
    let osif_priv := objmgr_get_ospriv obj_kind.vdev vdev w.objs
    let w1 : World := { w with objs := objmgr_reset_ospriv obj_kind.vdev vdev w.objs }
    let bug : List Event :=
      match osif_priv with
      | none => [Event.QDF_BUG]
      | some _ => []
    let d := hdd_deinit_vdev_os_priv osif_priv w1
    { ret := P.qdf_status_to_os_return obj_delete,
      adapter := adapter1,
      world :=
        { d.world with
          objs := objmgr_release_ref obj_kind.vdev vdev
                    wlan_objmgr_ref_dbgid.WLAN_HDD_ID_OBJ_MGR
                    (objmgr_obj_delete obj_kind.vdev vdev d.world.objs) },
      trace := locked
               ++ [Event.wlan_vdev_get_ospriv vdev, Event.wlan_vdev_reset_ospriv vdev]
               ++ bug ++ d.trace
               ++ [Event.wlan_objmgr_vdev_obj_delete vdev,
                   Event.wlan_objmgr_vdev_release_ref vdev
                     wlan_objmgr_ref_dbgid.WLAN_HDD_ID_OBJ_MGR] }

/-- Source lines 328-352; `try_get_ref` is the status of the acquisition. -/
def __hdd_objmgr_get_vdev (try_get_ref : QDF_STATUS) (w : World)
    (adapter : Option hdd_adapter) : get_vdev_result :=
  match adapter with
  | none => { vdev := none, adapter := none, world := w, trace := [] }
  | some a =>
    match a.vdev with
    | none =>
      { vdev := none, adapter := some a, world := w,
        trace := [Event.qdf_spin_lock_bh, Event.adapter_vdev_load none,
                  Event.qdf_spin_unlock_bh] }
    | some vdev =>
      if QDF_IS_STATUS_ERROR try_get_ref = true then
        { vdev := none, adapter := some a, world := w,
          trace := [Event.qdf_spin_lock_bh, Event.adapter_vdev_load (some vdev),
                    Event.wlan_objmgr_vdev_try_get_ref vdev
                      wlan_objmgr_ref_dbgid.WLAN_OSIF_ID try_get_ref,
                    Event.qdf_spin_unlock_bh] }
      else
        { vdev := some vdev, adapter := some a,
          world :=
            { w with
              objs := objmgr_get_ref obj_kind.vdev vdev
                        wlan_objmgr_ref_dbgid.WLAN_OSIF_ID w.objs },
          trace := [Event.qdf_spin_lock_bh, Event.adapter_vdev_load (some vdev),
                    Event.wlan_objmgr_vdev_try_get_ref vdev
                      wlan_objmgr_ref_dbgid.WLAN_OSIF_ID try_get_ref,
                    Event.qdf_spin_unlock_bh] }

/-- Source lines 354-362. -/
def __hdd_objmgr_put_vdev (w : World) (vdev : Option Nat) : void_result :=
  match vdev with
  | none => { world := w, trace := [] }
  | some v =>
    { world :=
        { w with
          objs := objmgr_release_ref obj_kind.vdev v
                    wlan_objmgr_ref_dbgid.WLAN_OSIF_ID w.objs },
      trace := [Event.wlan_objmgr_vdev_release_ref v wlan_objmgr_ref_dbgid.WLAN_OSIF_ID] }

/-- Source lines 391-411. -/
def hdd_objmgr_set_peer_mlme_state (P : Platform) (w : World) (vdev : Nat)
    (_peer_state : wlan_peer_state) : vdev_result :=
  let looked : List Event :=
    [Event.wlan_vdev_obj_lock vdev, Event.wlan_vdev_get_bsspeer vdev,
     Event.wlan_vdev_obj_unlock vdev]
  match w.bsspeer vdev with
  | none => { ret := -P.EINVAL, world := w, trace := looked }
  | some peer =>
    { ret := 0,
      world :=
        { w with
          peer_mlme_state := fun p =>
            if p = peer then wlan_peer_state.WLAN_ASSOC_STATE else w.peer_mlme_state p },
      trace := looked
               ++ [Event.wlan_peer_obj_lock peer,
                   Event.wlan_peer_mlme_set_state peer wlan_peer_state.WLAN_ASSOC_STATE,
                   Event.wlan_peer_obj_unlock peer] }

/-! ## Observers used by the statements -/

/-- The locks the file takes. -/
inductive Lock where
  | adapter_vdev_lock
  | vdev_obj (vdev : Nat)
  | peer_obj (peer : Nat)
  deriving DecidableEq, Repr

/-- Effect of one event on the list of held locks. -/
def lock_step (held : List Lock) : Event → List Lock
  | Event.qdf_spin_lock_bh => Lock.adapter_vdev_lock :: held
  | Event.qdf_spin_unlock_bh => held.erase Lock.adapter_vdev_lock
  | Event.wlan_vdev_obj_lock v => Lock.vdev_obj v :: held
  | Event.wlan_vdev_obj_unlock v => held.erase (Lock.vdev_obj v)
  | Event.wlan_peer_obj_lock p => Lock.peer_obj p :: held
  | Event.wlan_peer_obj_unlock p => held.erase (Lock.peer_obj p)
  | _ => held

/-- The locks held after a trace that started with none held. -/
def locks_held (t : List Event) : List Lock :=
  t.foldl lock_step []

/-- The locks held at the moment each event of a trace is issued. -/
def held_at : List Lock → List Event → List (Event × List Lock)
  | _, [] => []
  | held, e :: t => (e, held) :: held_at (lock_step held e) t

/-- Whether an event is an attempt to acquire a reference on a vdev. -/
def is_vdev_try_get_ref : Event → Bool
  | Event.wlan_objmgr_vdev_try_get_ref _ _ _ => true
  | _ => false

/-- The steps of a teardown or rollback that the statements order. -/
inductive Phase where
  | hook
  | detach
  | free
  | delete
  | release
  deriving DecidableEq, Repr

/-- The teardown step an event belongs to, if any. -/
def teardown_phase : Event → Option Phase
  | Event.target_if_free_pdev_tgt_info _ => some Phase.hook
  | Event.os_if_spectral_netlink_deinit _ => some Phase.hook
  | Event.wlan_cfg80211_scan_priv_deinit _ => some Phase.hook
  | Event.wlan_cfg80211_tdls_priv_deinit _ => some Phase.hook
  | Event.wlan_pdev_reset_ospriv _ => some Phase.detach
  | Event.wlan_vdev_reset_ospriv _ => some Phase.detach
  | Event.qdf_mem_free _ => some Phase.free
  | Event.wlan_objmgr_psoc_obj_delete _ => some Phase.delete
  | Event.wlan_objmgr_pdev_obj_delete _ => some Phase.delete
  | Event.wlan_objmgr_vdev_obj_delete _ => some Phase.delete
  | Event.wlan_objmgr_psoc_release_ref _ _ => some Phase.release
  | Event.wlan_objmgr_pdev_release_ref _ _ => some Phase.release
  | Event.wlan_objmgr_vdev_release_ref _ _ => some Phase.release
  | _ => none

/-- The teardown steps of a trace, in program order. -/
def phases (t : List Event) : List Phase :=
  t.filterMap teardown_phase

/-- Number of successful acquisitions of a Device reference by the HDD. -/
def pdev_refs_acquired (t : List Event) : Nat :=
  (t.filter (fun e =>
    match e with
    | Event.wlan_objmgr_pdev_try_get_ref _ wlan_objmgr_ref_dbgid.WLAN_HDD_ID_OBJ_MGR
        QDF_STATUS.QDF_STATUS_SUCCESS => true
    | _ => false)).length

/-- Number of releases of a Device reference by the HDD. -/
def pdev_refs_released (t : List Event) : Nat :=
  (t.filter (fun e =>
    match e with
    | Event.wlan_objmgr_pdev_release_ref _ wlan_objmgr_ref_dbgid.WLAN_HDD_ID_OBJ_MGR => true
    | _ => false)).length

/-! ## Concrete inputs used to evaluate the routines -/

/-- A platform with the usual Linux errno values. -/
def sample_platform : Platform :=
  { EINVAL := 22, ENOMEM := 12, HDD_SESSION_ID_INVALID := 255,
    qdf_status_to_os_return := fun s =>
      match s with
      | QDF_STATUS.QDF_STATUS_SUCCESS => 0
      | QDF_STATUS.QDF_STATUS_E_INVAL => -22
      | QDF_STATUS.QDF_STATUS_E_NOMEM => -12
      | QDF_STATUS.QDF_STATUS_E_OTHER _ => -1 }

/-- A capability table whose content differs from the constants of the file. -/
def sample_reg_cap : wlan_psoc_host_hal_reg_capabilities_ext :=
  { phy_id := 1, low_2ghz_chan := 0, high_2ghz_chan := 0, low_5ghz_chan := 0,
    high_5ghz_chan := 0, rest := 7 }

/-- A world holding one psoc (handle 1, held by the HDD) with a capability
table, and nothing else. -/
def sample_world : World :=
  { objs := [{ kind := obj_kind.psoc, handle := 1, logically_deleted := false,
               refs := [wlan_objmgr_ref_dbgid.WLAN_HDD_ID_OBJ_MGR], ospriv := none,
               vdev_id := 0 }],
    heap := [],
    hal_reg_cap := fun p => if p = 1 then some sample_reg_cap else none,
    bsspeer := fun _ => none,
    peer_mlme_state := fun _ => wlan_peer_state.WLAN_PEER_STATE_OTHER 0 }

/-- A driver context that holds psoc 1 and no pdev. -/
def sample_ctx : hdd_context := { psoc := some 1, pdev := none }

/-- An adapter with an empty vdev slot. -/
def sample_adapter : hdd_adapter :=
  { vdev := none, session_id := 255, device_mode := 0, mac_addr := [2, 0, 0, 0, 0, 1] }

/-- Device creation in which the structural create fails. -/
def pdev_create_fails : pdev_create_inputs :=
  { qdf_mem_malloc := some 100, wlan_objmgr_pdev_obj_create := none,
    wlan_objmgr_pdev_try_get_ref := QDF_STATUS.QDF_STATUS_SUCCESS,
    target_if_alloc_pdev_tgt_info := QDF_STATUS.QDF_STATUS_SUCCESS }

/-- Device creation in which only the target info allocation fails. -/
def pdev_tgt_info_fails : pdev_create_inputs :=
  { qdf_mem_malloc := some 100, wlan_objmgr_pdev_obj_create := some 2,
    wlan_objmgr_pdev_try_get_ref := QDF_STATUS.QDF_STATUS_SUCCESS,
    target_if_alloc_pdev_tgt_info := QDF_STATUS.QDF_STATUS_E_NOMEM }

/-- Device creation in which the reference acquisition fails. -/
def pdev_get_ref_fails : pdev_create_inputs :=
  { qdf_mem_malloc := some 100, wlan_objmgr_pdev_obj_create := some 2,
    wlan_objmgr_pdev_try_get_ref := QDF_STATUS.QDF_STATUS_E_OTHER 4,
    target_if_alloc_pdev_tgt_info := QDF_STATUS.QDF_STATUS_SUCCESS }

/-- Root creation in which the reference acquisition fails. -/
def psoc_get_ref_fails : psoc_create_inputs :=
  { wlan_objmgr_psoc_obj_create := some 9,
    wlan_objmgr_psoc_try_get_ref := QDF_STATUS.QDF_STATUS_E_OTHER 4,
    cds_get_context := some 50 }

/-- Interface creation in which the reference acquisition fails. -/
def vdev_get_ref_fails : vdev_create_inputs :=
  { qdf_mem_malloc := some 200, wlan_objmgr_vdev_obj_create := some 5, vdev_id := 3,
    wlan_objmgr_vdev_try_get_ref := QDF_STATUS.QDF_STATUS_E_OTHER 4 }

/-- Interface creation in which every step succeeds. -/
def vdev_create_ok : vdev_create_inputs :=
  { qdf_mem_malloc := some 200, wlan_objmgr_vdev_obj_create := some 5, vdev_id := 3,
    wlan_objmgr_vdev_try_get_ref := QDF_STATUS.QDF_STATUS_SUCCESS }

/-- The state after a successful Interface creation on the sample adapter. -/
def published_vdev : adapter_result :=
  hdd_objmgr_create_and_store_vdev sample_platform vdev_create_ok sample_world (some 2)
    sample_adapter

/-- The state after a consumer then looked the Interface up and got a
transient reference that it has not returned. -/
def held_vdev : get_vdev_result :=
  __hdd_objmgr_get_vdev QDF_STATUS.QDF_STATUS_SUCCESS published_vdev.world
    (some published_vdev.adapter)

/-- A world in which Interface 5 has the primary Peer 8. -/
def sample_world_peer : World :=
  { sample_world with bsspeer := fun v => if v = 5 then some 8 else none }

/-- The order of teardown steps a destroy is said to follow: detach hooks,
then detach, free, delete and release, once each. -/
def claimed_teardown_order (ph : List Phase) : Bool :=
  decide (ph.dropWhile (fun x => decide (x = Phase.hook))
    = [Phase.detach, Phase.free, Phase.delete, Phase.release])

/-! ## Lemmas on the bookkeeping -/

theorem objmgr_delete_create (k : obj_kind) (h : Nat) (p : Option Nat) (i : Nat)
    (objs : List objmgr_obj) :
    objmgr_obj_delete k h (objmgr_obj_create k h p i objs) = objs := by
  simp [objmgr_obj_delete, objmgr_obj_create, objmgr_modify]

theorem objmgr_modify_keeps (k : obj_kind) (h : Nat) (f : objmgr_obj → Option objmgr_obj)
    (hf : ∀ e : objmgr_obj, 0 < e.refs.count wlan_objmgr_ref_dbgid.WLAN_OSIF_ID →
      ∃ e2, f e = some e2 ∧ e2.kind = e.kind ∧ e2.handle = e.handle
        ∧ e2.refs.count wlan_objmgr_ref_dbgid.WLAN_OSIF_ID
            = e.refs.count wlan_objmgr_ref_dbgid.WLAN_OSIF_ID)
    (objs : List objmgr_obj) :
    ∀ e ∈ objs, 0 < e.refs.count wlan_objmgr_ref_dbgid.WLAN_OSIF_ID →
      ∃ e2 ∈ objmgr_modify k h f objs, e2.kind = e.kind ∧ e2.handle = e.handle
        ∧ e2.refs.count wlan_objmgr_ref_dbgid.WLAN_OSIF_ID
            = e.refs.count wlan_objmgr_ref_dbgid.WLAN_OSIF_ID := by
  induction objs with
  | nil => intro e he; cases he
  | cons e0 es ih =>
    intro e he hpos
    rw [List.mem_cons] at he
    by_cases hk : e0.kind = k ∧ e0.handle = h
    · rcases he with he | he
      · subst he
        obtain ⟨e2, h1, h2⟩ := hf e hpos
        refine ⟨e2, ?_, h2⟩
        simp [objmgr_modify, hk, h1]
      · refine ⟨e, ?_, rfl, rfl, rfl⟩
        simp only [objmgr_modify, hk, and_self, if_true]
        cases f e0 with
        | none => exact he
        | some e3 => exact List.mem_cons_of_mem _ he
    · rcases he with he | he
      · subst he
        refine ⟨e, ?_, rfl, rfl, rfl⟩
        simp [objmgr_modify, hk]
      · obtain ⟨e2, h1, h2⟩ := ih e he hpos
        refine ⟨e2, ?_, h2⟩
        simp only [objmgr_modify, hk, if_false]
        exact List.mem_cons_of_mem _ h1

theorem objmgr_reset_ospriv_keeps (k : obj_kind) (h : Nat) (objs : List objmgr_obj) :
    ∀ e ∈ objs, 0 < e.refs.count wlan_objmgr_ref_dbgid.WLAN_OSIF_ID →
      ∃ e2 ∈ objmgr_reset_ospriv k h objs, e2.kind = e.kind ∧ e2.handle = e.handle
        ∧ e2.refs.count wlan_objmgr_ref_dbgid.WLAN_OSIF_ID
            = e.refs.count wlan_objmgr_ref_dbgid.WLAN_OSIF_ID := by
  apply objmgr_modify_keeps
  intro e _
  exact ⟨_, rfl, rfl, rfl, rfl⟩

theorem objmgr_obj_delete_keeps (k : obj_kind) (h : Nat) (objs : List objmgr_obj) :
    ∀ e ∈ objs, 0 < e.refs.count wlan_objmgr_ref_dbgid.WLAN_OSIF_ID →
      ∃ e2 ∈ objmgr_obj_delete k h objs, e2.kind = e.kind ∧ e2.handle = e.handle
        ∧ e2.refs.count wlan_objmgr_ref_dbgid.WLAN_OSIF_ID
            = e.refs.count wlan_objmgr_ref_dbgid.WLAN_OSIF_ID := by
  apply objmgr_modify_keeps
  intro e hpos
  have hne : e.refs ≠ [] := by
    intro h0
    rw [h0] at hpos
    simp at hpos
  exact ⟨_, if_neg hne, rfl, rfl, rfl⟩

theorem objmgr_release_hdd_keeps (k : obj_kind) (h : Nat) (objs : List objmgr_obj) :
    ∀ e ∈ objs, 0 < e.refs.count wlan_objmgr_ref_dbgid.WLAN_OSIF_ID →
      ∃ e2 ∈ objmgr_release_ref k h wlan_objmgr_ref_dbgid.WLAN_HDD_ID_OBJ_MGR objs,
        e2.kind = e.kind ∧ e2.handle = e.handle
        ∧ e2.refs.count wlan_objmgr_ref_dbgid.WLAN_OSIF_ID
            = e.refs.count wlan_objmgr_ref_dbgid.WLAN_OSIF_ID := by
  apply objmgr_modify_keeps
  intro e hpos
  have hc : (e.refs.erase wlan_objmgr_ref_dbgid.WLAN_HDD_ID_OBJ_MGR).count
      wlan_objmgr_ref_dbgid.WLAN_OSIF_ID
      = e.refs.count wlan_objmgr_ref_dbgid.WLAN_OSIF_ID :=
    List.count_erase_of_ne (by decide) e.refs
  have hne : e.refs.erase wlan_objmgr_ref_dbgid.WLAN_HDD_ID_OBJ_MGR ≠ [] := by
    intro h0
    rw [h0] at hc
    simp at hc
    omega
  refine ⟨_, if_neg ?_, rfl, rfl, hc⟩
  intro hh
  exact hne hh.2


/-! ## Claims -/

/-- C1, as stated, fails: a Device creation whose structural create fails
returns a non-zero error although the capability table of the Root was
overwritten. -/
theorem C1_counterexample :
    (hdd_objmgr_create_and_store_pdev sample_platform pdev_create_fails sample_world
        sample_ctx).ret ≠ 0
    ∧ (hdd_objmgr_create_and_store_pdev sample_platform pdev_create_fails sample_world
        sample_ctx).world.hal_reg_cap 1 ≠ sample_world.hal_reg_cap 1 := by
  constructor
  · simp [hdd_objmgr_create_and_store_pdev, sample_platform, pdev_create_fails, sample_world,
      sample_ctx]
  · simp [hdd_objmgr_create_and_store_pdev, sample_platform, pdev_create_fails, sample_world,
      sample_ctx, set_reg_cap, sample_reg_cap]

/-- C1, amended: a failing Root or Interface creation leaves the handle slots
and the world as they were; a failing Device creation leaves the handle slots,
the live integration records and the Peer data as they were, leaves the whole
world as it was when it fails before the capability table is written, and
otherwise leaves the table of the Root holding the constants of the file; the
live structural objects are as before unless the failure is that of the target
info allocation. -/
theorem C1_failed_create_state (P : Platform) (w : World) (hdd_ctx : hdd_context)
    (adapter : hdd_adapter) (pdev : Option Nat) (psoc_id : Nat) (op : psoc_create_inputs)
    (od : pdev_create_inputs) (ov : vdev_create_inputs) :
    ((hdd_objmgr_create_and_store_psoc P op w hdd_ctx psoc_id).ret ≠ 0 →
      (hdd_objmgr_create_and_store_psoc P op w hdd_ctx psoc_id).hdd_ctx = hdd_ctx
      ∧ (hdd_objmgr_create_and_store_psoc P op w hdd_ctx psoc_id).world = w)
    ∧ ((hdd_objmgr_create_and_store_vdev P ov w pdev adapter).ret ≠ 0 →
      (hdd_objmgr_create_and_store_vdev P ov w pdev adapter).adapter = adapter
      ∧ (hdd_objmgr_create_and_store_vdev P ov w pdev adapter).world = w)
    ∧ ((hdd_objmgr_create_and_store_pdev P od w hdd_ctx).ret ≠ 0 →
      (hdd_objmgr_create_and_store_pdev P od w hdd_ctx).hdd_ctx = hdd_ctx
      ∧ (hdd_objmgr_create_and_store_pdev P od w hdd_ctx).world.heap = w.heap
      ∧ (hdd_objmgr_create_and_store_pdev P od w hdd_ctx).world.bsspeer = w.bsspeer
      ∧ (hdd_objmgr_create_and_store_pdev P od w hdd_ctx).world.peer_mlme_state
          = w.peer_mlme_state
      ∧ ((hdd_ctx.psoc = none ∨ od.qdf_mem_malloc = none
            ∨ (∀ psoc, hdd_ctx.psoc = some psoc → w.hal_reg_cap psoc = none)) →
          (hdd_objmgr_create_and_store_pdev P od w hdd_ctx).world = w)
      ∧ (∀ psoc c, hdd_ctx.psoc = some psoc → od.qdf_mem_malloc ≠ none →
            w.hal_reg_cap psoc = some c →
          (hdd_objmgr_create_and_store_pdev P od w hdd_ctx).world.hal_reg_cap
            = fun p => if p = psoc then some (set_reg_cap c) else w.hal_reg_cap p)
      ∧ (¬ (od.wlan_objmgr_pdev_obj_create ≠ none
              ∧ od.wlan_objmgr_pdev_try_get_ref = QDF_STATUS.QDF_STATUS_SUCCESS
              ∧ od.target_if_alloc_pdev_tgt_info ≠ QDF_STATUS.QDF_STATUS_SUCCESS) →
          (hdd_objmgr_create_and_store_pdev P od w hdd_ctx).world.objs = w.objs)) := by
  refine ⟨?_, ?_, ?_⟩
  · unfold hdd_objmgr_create_and_store_psoc
    cases op.wlan_objmgr_psoc_obj_create with
    | none => simp
    | some psoc =>
      by_cases hs : QDF_IS_STATUS_ERROR op.wlan_objmgr_psoc_try_get_ref = true
      · simp [hs, objmgr_delete_create]
      · simp [hs]
  · unfold hdd_objmgr_create_and_store_vdev
    cases pdev with
    | none => simp
    | some pd =>
      cases hm : ov.qdf_mem_malloc with
      | none => simp [hdd_init_vdev_os_priv]
      | some r =>
        cases ov.wlan_objmgr_vdev_obj_create with
        | none => simp [hdd_init_vdev_os_priv, hdd_deinit_vdev_os_priv]
        | some v =>
          by_cases hs : QDF_IS_STATUS_ERROR ov.wlan_objmgr_vdev_try_get_ref = true
          · simp [hdd_init_vdev_os_priv, hdd_deinit_vdev_os_priv, hs, objmgr_delete_create]
          · simp [hdd_init_vdev_os_priv, hs]
  · unfold hdd_objmgr_create_and_store_pdev
    cases hp : hdd_ctx.psoc with
    | none => simp
    | some psoc =>
      cases hm : od.qdf_mem_malloc with
      | none => simp
      | some priv =>
        cases hr : w.hal_reg_cap psoc with
        | none =>
          simp only [hr]
          simp
          intro _ psoc1 c1 h1 h2
          subst h1
          rw [hr] at h2
          cases h2
        | some c =>
          have key : ∀ (psoc1 : Nat) (c1 : wlan_psoc_host_hal_reg_capabilities_ext),
              psoc = psoc1 → w.hal_reg_cap psoc1 = some c1 →
              (fun p => if p = psoc then some (set_reg_cap c) else w.hal_reg_cap p)
                = fun p => if p = psoc1 then some (set_reg_cap c1) else w.hal_reg_cap p := by
            intro psoc1 c1 h1 h2
            subst h1
            rw [hr] at h2
            cases h2
            rfl
          cases hc : od.wlan_objmgr_pdev_obj_create with
          | none =>
            simp [hr]
            intro _
            exact key
          | some pd =>
            by_cases hs : QDF_IS_STATUS_ERROR od.wlan_objmgr_pdev_try_get_ref = true
            · simp [hr, hs, objmgr_delete_create]
              intro _
              exact key
            · by_cases ht : od.target_if_alloc_pdev_tgt_info = QDF_STATUS.QDF_STATUS_SUCCESS
              · simp [hr, hs, ht]
              · have hs2 : od.wlan_objmgr_pdev_try_get_ref = QDF_STATUS.QDF_STATUS_SUCCESS := by
                  simpa [QDF_IS_STATUS_ERROR] using hs
                simp [hr, hs, ht]
                intro _
                exact ⟨key, fun h => absurd hs2 h⟩

/-- C1 evaluated at one failing call of each create routine. -/
theorem C1_failed_create_state_witness :
    (hdd_objmgr_create_and_store_psoc sample_platform psoc_get_ref_fails sample_world
        sample_ctx 0).world = sample_world
    ∧ (hdd_objmgr_create_and_store_vdev sample_platform vdev_get_ref_fails sample_world
        (some 2) sample_adapter).world = sample_world
    ∧ (hdd_objmgr_create_and_store_pdev sample_platform pdev_get_ref_fails sample_world
        sample_ctx).world.objs = sample_world.objs :=
  ⟨((C1_failed_create_state sample_platform sample_world sample_ctx sample_adapter (some 2) 0
      psoc_get_ref_fails pdev_get_ref_fails vdev_get_ref_fails).1 (by decide)).2,
   ((C1_failed_create_state sample_platform sample_world sample_ctx sample_adapter (some 2) 0
      psoc_get_ref_fails pdev_get_ref_fails vdev_get_ref_fails).2.1 (by decide)).2,
   ((C1_failed_create_state sample_platform sample_world sample_ctx sample_adapter (some 2) 0
      psoc_get_ref_fails pdev_get_ref_fails vdev_get_ref_fails).2.2 (by decide)).2.2.2.2.2.2
      (by decide)⟩

/-- C9: on the path where the target info allocation fails after the
reference was taken, the Device creation returns the mapped error having
acquired one reference and released none; the Device stays in the pool,
marked deleted and still held by the HDD, and its record is freed. -/
theorem C9_reference_not_released :
    (hdd_objmgr_create_and_store_pdev sample_platform pdev_tgt_info_fails sample_world
        sample_ctx).ret = -12
    ∧ (hdd_objmgr_create_and_store_pdev sample_platform pdev_tgt_info_fails sample_world
        sample_ctx).trace
      = [Event.qdf_mem_malloc (some 100), Event.ucfg_reg_get_hal_reg_cap 1,
         Event.wlan_objmgr_pdev_obj_create 1 100 (some 2),
         Event.wlan_objmgr_pdev_try_get_ref 2 wlan_objmgr_ref_dbgid.WLAN_HDD_ID_OBJ_MGR
           QDF_STATUS.QDF_STATUS_SUCCESS,
         Event.target_if_alloc_pdev_tgt_info 2 QDF_STATUS.QDF_STATUS_E_NOMEM,
         Event.wlan_objmgr_pdev_obj_delete 2,
         Event.qdf_mem_free (some 100)]
    ∧ pdev_refs_acquired (hdd_objmgr_create_and_store_pdev sample_platform pdev_tgt_info_fails
        sample_world sample_ctx).trace = 1
    ∧ pdev_refs_released (hdd_objmgr_create_and_store_pdev sample_platform pdev_tgt_info_fails
        sample_world sample_ctx).trace = 0
    ∧ objmgr_find obj_kind.pdev 2 (hdd_objmgr_create_and_store_pdev sample_platform
        pdev_tgt_info_fails sample_world sample_ctx).world.objs
      = some { kind := obj_kind.pdev, handle := 2, logically_deleted := true,
               refs := [wlan_objmgr_ref_dbgid.WLAN_HDD_ID_OBJ_MGR], ospriv := some 100,
               vdev_id := 0 }
    ∧ (hdd_objmgr_create_and_store_pdev sample_platform pdev_tgt_info_fails sample_world
        sample_ctx).world.heap = [] := by
  refine ⟨by decide, by decide, by decide, by decide, by decide, by decide⟩

/-- C7, as stated, fails: a Device creation on a context whose psoc slot is
empty returns -EINVAL without the fatal assertion having fired. -/
theorem C7_counterexample :
    (hdd_objmgr_create_and_store_pdev sample_platform pdev_create_fails sample_world
        { psoc := none, pdev := none }).ret = -22
    ∧ Event.QDF_BUG ∉ (hdd_objmgr_create_and_store_pdev sample_platform pdev_create_fails
        sample_world { psoc := none, pdev := none }).trace := by
  refine ⟨by decide, by decide⟩

/-- C7, amended: an Interface creation with a NULL pdev fires the fatal
assertion and nothing else, and returns -EINVAL; a Device creation with an
empty psoc slot returns -EINVAL without any assertion or other external call;
both leave the handle slots and the world as they were. -/
theorem C7_missing_parent (P : Platform) (w : World) (hdd_ctx : hdd_context)
    (adapter : hdd_adapter) (od : pdev_create_inputs) (ov : vdev_create_inputs)
    (h : hdd_ctx.psoc = none) :
    (hdd_objmgr_create_and_store_vdev P ov w none adapter).trace = [Event.QDF_BUG]
    ∧ (hdd_objmgr_create_and_store_vdev P ov w none adapter).ret = -P.EINVAL
    ∧ (hdd_objmgr_create_and_store_vdev P ov w none adapter).adapter = adapter
    ∧ (hdd_objmgr_create_and_store_vdev P ov w none adapter).world = w
    ∧ (hdd_objmgr_create_and_store_pdev P od w hdd_ctx).trace = []
    ∧ (hdd_objmgr_create_and_store_pdev P od w hdd_ctx).ret = -P.EINVAL
    ∧ (hdd_objmgr_create_and_store_pdev P od w hdd_ctx).hdd_ctx = hdd_ctx
    ∧ (hdd_objmgr_create_and_store_pdev P od w hdd_ctx).world = w := by
  simp [hdd_objmgr_create_and_store_vdev, hdd_objmgr_create_and_store_pdev, h]

/-- C7 evaluated at a NULL pdev and at an empty psoc slot. -/
theorem C7_missing_parent_witness :
    (hdd_objmgr_create_and_store_vdev sample_platform vdev_create_ok sample_world none
        sample_adapter).trace = [Event.QDF_BUG]
    ∧ (hdd_objmgr_create_and_store_pdev sample_platform pdev_create_fails sample_world
        { psoc := none, pdev := none }).trace = [] :=
  ⟨(C7_missing_parent sample_platform sample_world { psoc := none, pdev := none }
      sample_adapter pdev_create_fails vdev_create_ok rfl).1,
   (C7_missing_parent sample_platform sample_world { psoc := none, pdev := none }
      sample_adapter pdev_create_fails vdev_create_ok rfl).2.2.2.2.1⟩

/-- C6, as stated, fails: in a failing Interface creation and in a failing
Device creation the rollback deletes the structural object first and frees
the integration record afterwards. -/
theorem C6_counterexample :
    phases (hdd_objmgr_create_and_store_vdev sample_platform vdev_get_ref_fails sample_world
        (some 2) sample_adapter).trace = [Phase.delete, Phase.hook, Phase.free]
    ∧ phases (hdd_objmgr_create_and_store_pdev sample_platform pdev_get_ref_fails sample_world
        sample_ctx).trace = [Phase.delete, Phase.free]
    ∧ (hdd_objmgr_create_and_store_vdev sample_platform vdev_get_ref_fails sample_world
        (some 2) sample_adapter).trace.indexOf (Event.wlan_objmgr_vdev_obj_delete 5)
      < (hdd_objmgr_create_and_store_vdev sample_platform vdev_get_ref_fails sample_world
        (some 2) sample_adapter).trace.indexOf (Event.qdf_mem_free (some 200))
    ∧ (hdd_objmgr_create_and_store_pdev sample_platform pdev_get_ref_fails sample_world
        sample_ctx).trace.indexOf (Event.wlan_objmgr_pdev_obj_delete 2)
      < (hdd_objmgr_create_and_store_pdev sample_platform pdev_get_ref_fails sample_world
        sample_ctx).trace.indexOf (Event.qdf_mem_free (some 100)) := by
  refine ⟨by decide, by decide, by decide, by decide⟩

/-- C6, amended: in every failing Device or Interface creation in which the
structural object had already been created, the rollback deletes the
structural object first and frees the integration record afterwards (for an
Interface after the detach hook of the record), these are its only teardown
steps, and the call returns the mapped status of the failed step. -/
theorem C6_rollback_order (P : Platform) (w : World) (hdd_ctx : hdd_context)
    (adapter : hdd_adapter) (od : pdev_create_inputs) (ov : vdev_create_inputs)
    (psoc pd pdev vd priv rec : Nat) (c : wlan_psoc_host_hal_reg_capabilities_ext)
    (h1 : hdd_ctx.psoc = some psoc) (h2 : od.qdf_mem_malloc = some priv)
    (h3 : w.hal_reg_cap psoc = some c) (h4 : od.wlan_objmgr_pdev_obj_create = some pd)
    (h5 : QDF_IS_STATUS_ERROR od.wlan_objmgr_pdev_try_get_ref = true
          ∨ od.target_if_alloc_pdev_tgt_info ≠ QDF_STATUS.QDF_STATUS_SUCCESS)
    (h6 : ov.qdf_mem_malloc = some rec) (h7 : ov.wlan_objmgr_vdev_obj_create = some vd)
    (h8 : QDF_IS_STATUS_ERROR ov.wlan_objmgr_vdev_try_get_ref = true) :
    phases (hdd_objmgr_create_and_store_pdev P od w hdd_ctx).trace = [Phase.delete, Phase.free]
    ∧ (∃ pre, (hdd_objmgr_create_and_store_pdev P od w hdd_ctx).trace
          = pre ++ [Event.wlan_objmgr_pdev_obj_delete pd, Event.qdf_mem_free (some priv)])
    ∧ (hdd_objmgr_create_and_store_pdev P od w hdd_ctx).ret
        = P.qdf_status_to_os_return
            (if QDF_IS_STATUS_ERROR od.wlan_objmgr_pdev_try_get_ref = true
             then od.wlan_objmgr_pdev_try_get_ref else od.target_if_alloc_pdev_tgt_info)
    ∧ phases (hdd_objmgr_create_and_store_vdev P ov w (some pdev) adapter).trace
        = [Phase.delete, Phase.hook, Phase.free]
    ∧ (∃ pre, (hdd_objmgr_create_and_store_vdev P ov w (some pdev) adapter).trace
          = pre ++ [Event.wlan_objmgr_vdev_obj_delete vd,
                    Event.wlan_cfg80211_tdls_priv_deinit rec, Event.qdf_mem_free (some rec)])
    ∧ (hdd_objmgr_create_and_store_vdev P ov w (some pdev) adapter).ret
        = P.qdf_status_to_os_return ov.wlan_objmgr_vdev_try_get_ref := by
  have hv : (hdd_objmgr_create_and_store_vdev P ov w (some pdev) adapter).trace
      = [Event.qdf_mem_malloc (some rec), Event.wlan_cfg80211_tdls_priv_init rec,
         Event.wlan_objmgr_vdev_obj_create pdev
           { opmode := adapter.device_mode, macaddr := adapter.mac_addr, osifp := some rec }
           (some vd),
         Event.wlan_objmgr_vdev_try_get_ref vd wlan_objmgr_ref_dbgid.WLAN_HDD_ID_OBJ_MGR
           ov.wlan_objmgr_vdev_try_get_ref]
        ++ [Event.wlan_objmgr_vdev_obj_delete vd,
            Event.wlan_cfg80211_tdls_priv_deinit rec, Event.qdf_mem_free (some rec)] := by
    simp [hdd_objmgr_create_and_store_vdev, hdd_init_vdev_os_priv, hdd_deinit_vdev_os_priv,
      h6, h7, h8]
  have hvr : (hdd_objmgr_create_and_store_vdev P ov w (some pdev) adapter).ret
      = P.qdf_status_to_os_return ov.wlan_objmgr_vdev_try_get_ref := by
    simp [hdd_objmgr_create_and_store_vdev, hdd_init_vdev_os_priv, hdd_deinit_vdev_os_priv,
      h6, h7, h8]
  refine ⟨?_, ?_, ?_, ?_, ⟨_, hv⟩, hvr⟩
  · by_cases hs : QDF_IS_STATUS_ERROR od.wlan_objmgr_pdev_try_get_ref = true
    · simp [hdd_objmgr_create_and_store_pdev, h1, h2, h3, h4, hs, phases, teardown_phase]
    · have ht : od.target_if_alloc_pdev_tgt_info ≠ QDF_STATUS.QDF_STATUS_SUCCESS := by
        cases h5 with
        | inl h => exact absurd h hs
        | inr h => exact h
      simp [hdd_objmgr_create_and_store_pdev, h1, h2, h3, h4, hs, ht, phases, teardown_phase]
  · by_cases hs : QDF_IS_STATUS_ERROR od.wlan_objmgr_pdev_try_get_ref = true
    · refine ⟨[Event.qdf_mem_malloc (some priv), Event.ucfg_reg_get_hal_reg_cap psoc,
        Event.wlan_objmgr_pdev_obj_create psoc priv (some pd),
        Event.wlan_objmgr_pdev_try_get_ref pd wlan_objmgr_ref_dbgid.WLAN_HDD_ID_OBJ_MGR
          od.wlan_objmgr_pdev_try_get_ref, Event.QDF_BUG], ?_⟩
      simp [hdd_objmgr_create_and_store_pdev, h1, h2, h3, h4, hs]
    · have ht : od.target_if_alloc_pdev_tgt_info ≠ QDF_STATUS.QDF_STATUS_SUCCESS := by
        cases h5 with
        | inl h => exact absurd h hs
        | inr h => exact h
      refine ⟨[Event.qdf_mem_malloc (some priv), Event.ucfg_reg_get_hal_reg_cap psoc,
        Event.wlan_objmgr_pdev_obj_create psoc priv (some pd),
        Event.wlan_objmgr_pdev_try_get_ref pd wlan_objmgr_ref_dbgid.WLAN_HDD_ID_OBJ_MGR
          od.wlan_objmgr_pdev_try_get_ref,
        Event.target_if_alloc_pdev_tgt_info pd od.target_if_alloc_pdev_tgt_info], ?_⟩
      simp [hdd_objmgr_create_and_store_pdev, h1, h2, h3, h4, hs, ht]
  · by_cases hs : QDF_IS_STATUS_ERROR od.wlan_objmgr_pdev_try_get_ref = true
    · simp [hdd_objmgr_create_and_store_pdev, h1, h2, h3, h4, hs]
    · have ht : od.target_if_alloc_pdev_tgt_info ≠ QDF_STATUS.QDF_STATUS_SUCCESS := by
        cases h5 with
        | inl h => exact absurd h hs
        | inr h => exact h
      simp [hdd_objmgr_create_and_store_pdev, h1, h2, h3, h4, hs, ht]
  · rw [hv]
    simp [phases, teardown_phase]

/-- C6 evaluated at creations whose reference acquisition fails. -/
theorem C6_rollback_order_witness :
    phases (hdd_objmgr_create_and_store_pdev sample_platform pdev_get_ref_fails sample_world
        sample_ctx).trace = [Phase.delete, Phase.free]
    ∧ phases (hdd_objmgr_create_and_store_vdev sample_platform vdev_get_ref_fails sample_world
        (some 2) sample_adapter).trace = [Phase.delete, Phase.hook, Phase.free] :=
  ⟨(C6_rollback_order sample_platform sample_world sample_ctx sample_adapter
      pdev_get_ref_fails vdev_get_ref_fails 1 2 2 5 100 200 sample_reg_cap
      rfl rfl rfl rfl (Or.inl rfl) rfl rfl rfl).1,
   (C6_rollback_order sample_platform sample_world sample_ctx sample_adapter
      pdev_get_ref_fails vdev_get_ref_fails 1 2 2 5 100 200 sample_reg_cap
      rfl rfl rfl rfl (Or.inl rfl) rfl rfl rfl).2.2.2.1⟩

/-- C2: the lookup on a NULL adapter returns NULL without taking the lock; on
an adapter with an empty slot it returns NULL and attempts no acquisition; on
an adapter whose slot holds v it attempts exactly one acquisition, on v for
WLAN_OSIF_ID, while the slot lock is held, and returns v when the acquisition
succeeds and NULL when it fails. In every case no lock is held on return and
the adapter is unchanged. -/
theorem C2_get_vdev (st : QDF_STATUS) (w : World) (a : hdd_adapter) :
    ((__hdd_objmgr_get_vdev st w none).vdev = none
      ∧ (__hdd_objmgr_get_vdev st w none).trace = [])
    ∧ (a.vdev = none →
        (__hdd_objmgr_get_vdev st w (some a)).vdev = none
        ∧ (__hdd_objmgr_get_vdev st w (some a)).trace.filter is_vdev_try_get_ref = []
        ∧ (__hdd_objmgr_get_vdev st w (some a)).world = w)
    ∧ (∀ v, a.vdev = some v →
        (__hdd_objmgr_get_vdev st w (some a)).trace
          = [Event.qdf_spin_lock_bh, Event.adapter_vdev_load (some v),
             Event.wlan_objmgr_vdev_try_get_ref v wlan_objmgr_ref_dbgid.WLAN_OSIF_ID st,
             Event.qdf_spin_unlock_bh]
        ∧ (__hdd_objmgr_get_vdev st w (some a)).trace.filter is_vdev_try_get_ref
          = [Event.wlan_objmgr_vdev_try_get_ref v wlan_objmgr_ref_dbgid.WLAN_OSIF_ID st]
        ∧ (Event.wlan_objmgr_vdev_try_get_ref v wlan_objmgr_ref_dbgid.WLAN_OSIF_ID st,
            [Lock.adapter_vdev_lock])
          ∈ held_at [] (__hdd_objmgr_get_vdev st w (some a)).trace
        ∧ (QDF_IS_STATUS_ERROR st = false → (__hdd_objmgr_get_vdev st w (some a)).vdev = some v)
        ∧ (QDF_IS_STATUS_ERROR st = true → (__hdd_objmgr_get_vdev st w (some a)).vdev = none))
    ∧ locks_held (__hdd_objmgr_get_vdev st w (some a)).trace = []
    ∧ locks_held (__hdd_objmgr_get_vdev st w none).trace = []
    ∧ (__hdd_objmgr_get_vdev st w (some a)).adapter = some a := by
  refine ⟨by simp [__hdd_objmgr_get_vdev], ?_, ?_, ?_, by simp [__hdd_objmgr_get_vdev, locks_held], ?_⟩
  · intro h
    simp [__hdd_objmgr_get_vdev, h, is_vdev_try_get_ref]
  · intro v h
    by_cases hs : QDF_IS_STATUS_ERROR st = true
    · simp [__hdd_objmgr_get_vdev, h, hs, is_vdev_try_get_ref, held_at, lock_step]
    · simp [__hdd_objmgr_get_vdev, h, hs, is_vdev_try_get_ref, held_at, lock_step]
  · cases h : a.vdev with
    | none => simp [__hdd_objmgr_get_vdev, h, locks_held, lock_step]
    | some v =>
      by_cases hs : QDF_IS_STATUS_ERROR st = true
      · simp [__hdd_objmgr_get_vdev, h, hs, locks_held, lock_step]
      · simp [__hdd_objmgr_get_vdev, h, hs, locks_held, lock_step]
  · cases h : a.vdev with
    | none => simp [__hdd_objmgr_get_vdev, h]
    | some v =>
      by_cases hs : QDF_IS_STATUS_ERROR st = true
      · simp [__hdd_objmgr_get_vdev, h, hs]
      · simp [__hdd_objmgr_get_vdev, h, hs]

/-- C2 evaluated at an empty slot and at a slot holding Interface 5. -/
theorem C2_get_vdev_witness :
    (__hdd_objmgr_get_vdev QDF_STATUS.QDF_STATUS_SUCCESS sample_world
        (some sample_adapter)).vdev = none
    ∧ (__hdd_objmgr_get_vdev QDF_STATUS.QDF_STATUS_SUCCESS sample_world
        (some { vdev := some 5, session_id := 3, device_mode := 0,
                mac_addr := [2, 0, 0, 0, 0, 1] })).vdev = some 5 :=
  ⟨((C2_get_vdev QDF_STATUS.QDF_STATUS_SUCCESS sample_world sample_adapter).2.1 rfl).1,
   ((C2_get_vdev QDF_STATUS.QDF_STATUS_SUCCESS sample_world
      { vdev := some 5, session_id := 3, device_mode := 0,
        mac_addr := [2, 0, 0, 0, 0, 1] }).2.2.1 5 rfl).2.2.2.1 rfl⟩

/-- C3: whatever it returns, the Interface teardown first takes the slot
lock, empties the slot (vdev NULL, session id invalid) and drops the lock,
both stores being made with the lock held and before any teardown step; on
the adapter it leaves behind, every lookup returns NULL, attempts no
acquisition and changes nothing. -/
theorem C3_slot_cleared_first (P : Platform) (st st2 : QDF_STATUS) (w w2 : World)
    (adapter : hdd_adapter) :
    (hdd_objmgr_release_and_destroy_vdev P st w adapter).adapter.vdev = none
    ∧ (hdd_objmgr_release_and_destroy_vdev P st w adapter).adapter.session_id
        = P.HDD_SESSION_ID_INVALID
    ∧ (hdd_objmgr_release_and_destroy_vdev P st w adapter).trace.take 5
        = [Event.qdf_spin_lock_bh, Event.adapter_vdev_load adapter.vdev,
           Event.adapter_vdev_store none,
           Event.adapter_session_id_store P.HDD_SESSION_ID_INVALID,
           Event.qdf_spin_unlock_bh]
    ∧ (held_at [] (hdd_objmgr_release_and_destroy_vdev P st w adapter).trace).take 5
        = [(Event.qdf_spin_lock_bh, []),
           (Event.adapter_vdev_load adapter.vdev, [Lock.adapter_vdev_lock]),
           (Event.adapter_vdev_store none, [Lock.adapter_vdev_lock]),
           (Event.adapter_session_id_store P.HDD_SESSION_ID_INVALID, [Lock.adapter_vdev_lock]),
           (Event.qdf_spin_unlock_bh, [Lock.adapter_vdev_lock])]
    ∧ phases ((hdd_objmgr_release_and_destroy_vdev P st w adapter).trace.take 5) = []
    ∧ (adapter.vdev = none →
        (hdd_objmgr_release_and_destroy_vdev P st w adapter).ret = -P.EINVAL)
    ∧ (__hdd_objmgr_get_vdev st2 w2
        (some (hdd_objmgr_release_and_destroy_vdev P st w adapter).adapter)).vdev = none
    ∧ (__hdd_objmgr_get_vdev st2 w2
        (some (hdd_objmgr_release_and_destroy_vdev P st w adapter).adapter)).trace.filter
          is_vdev_try_get_ref = []
    ∧ (__hdd_objmgr_get_vdev st2 w2
        (some (hdd_objmgr_release_and_destroy_vdev P st w adapter).adapter)).world = w2 := by
  cases h : adapter.vdev with
  | none =>
    simp [hdd_objmgr_release_and_destroy_vdev, h, __hdd_objmgr_get_vdev, held_at, lock_step,
      phases, teardown_phase, is_vdev_try_get_ref]
  | some v =>
    simp [hdd_objmgr_release_and_destroy_vdev, h, __hdd_objmgr_get_vdev, held_at, lock_step,
      phases, teardown_phase, is_vdev_try_get_ref]

/-- C3 evaluated at an adapter whose slot is already empty. -/
theorem C3_slot_cleared_first_witness :
    (hdd_objmgr_release_and_destroy_vdev sample_platform QDF_STATUS.QDF_STATUS_SUCCESS
        sample_world sample_adapter).ret = -22 :=
  (C3_slot_cleared_first sample_platform QDF_STATUS.QDF_STATUS_SUCCESS
      QDF_STATUS.QDF_STATUS_SUCCESS sample_world sample_world sample_adapter).2.2.2.2.2.1 rfl

/-- C10: the result of hdd_objmgr_set_peer_mlme_state is the same for every
value of peer_state. With a primary Peer the call returns 0, leaves that
Peer in WLAN_ASSOC_STATE and every other Peer as it was, drops the Interface
lock before it takes the Peer lock and holds no lock on return; without a
primary Peer it returns -EINVAL, holds no lock and changes nothing. -/
theorem C10_set_peer_mlme_state (P : Platform) (w : World) (vdev : Nat)
    (s1 s2 : wlan_peer_state) :
    hdd_objmgr_set_peer_mlme_state P w vdev s1 = hdd_objmgr_set_peer_mlme_state P w vdev s2
    ∧ (∀ peer, w.bsspeer vdev = some peer →
        (hdd_objmgr_set_peer_mlme_state P w vdev s1).ret = 0
        ∧ (hdd_objmgr_set_peer_mlme_state P w vdev s1).world.peer_mlme_state peer
            = wlan_peer_state.WLAN_ASSOC_STATE
        ∧ (∀ q, q ≠ peer →
            (hdd_objmgr_set_peer_mlme_state P w vdev s1).world.peer_mlme_state q
              = w.peer_mlme_state q)
        ∧ (hdd_objmgr_set_peer_mlme_state P w vdev s1).trace
            = [Event.wlan_vdev_obj_lock vdev, Event.wlan_vdev_get_bsspeer vdev,
               Event.wlan_vdev_obj_unlock vdev, Event.wlan_peer_obj_lock peer,
               Event.wlan_peer_mlme_set_state peer wlan_peer_state.WLAN_ASSOC_STATE,
               Event.wlan_peer_obj_unlock peer]
        ∧ (Event.wlan_peer_obj_lock peer, [])
            ∈ held_at [] (hdd_objmgr_set_peer_mlme_state P w vdev s1).trace
        ∧ locks_held (hdd_objmgr_set_peer_mlme_state P w vdev s1).trace = [])
    ∧ (w.bsspeer vdev = none →
        (hdd_objmgr_set_peer_mlme_state P w vdev s1).ret = -P.EINVAL
        ∧ (hdd_objmgr_set_peer_mlme_state P w vdev s1).world = w
        ∧ locks_held (hdd_objmgr_set_peer_mlme_state P w vdev s1).trace = []) := by
  refine ⟨rfl, ?_, ?_⟩
  · intro peer h
    simp [hdd_objmgr_set_peer_mlme_state, h, held_at, lock_step, locks_held]
    intro q hq
    simp [hq]
  · intro h
    simp [hdd_objmgr_set_peer_mlme_state, h, lock_step, locks_held]

/-- C10 evaluated at an Interface with and one without a primary Peer. -/
theorem C10_set_peer_mlme_state_witness :
    (hdd_objmgr_set_peer_mlme_state sample_platform sample_world_peer 5
        (wlan_peer_state.WLAN_PEER_STATE_OTHER 1)).ret = 0
    ∧ (hdd_objmgr_set_peer_mlme_state sample_platform sample_world_peer 6
        (wlan_peer_state.WLAN_PEER_STATE_OTHER 1)).ret = -22 :=
  ⟨((C10_set_peer_mlme_state sample_platform sample_world_peer 5
      (wlan_peer_state.WLAN_PEER_STATE_OTHER 1) wlan_peer_state.WLAN_ASSOC_STATE).2.1 8 rfl).1,
   ((C10_set_peer_mlme_state sample_platform sample_world_peer 6
      (wlan_peer_state.WLAN_PEER_STATE_OTHER 1) wlan_peer_state.WLAN_ASSOC_STATE).2.2 rfl).1⟩

/-- C8: on a platform whose ENOMEM is non-zero and whose status mapping sends
every error status to a non-zero value, an Interface creation under a
non-NULL pdev returns 0 exactly when the record allocation, the structural
creation and the reference acquisition all succeed. It then created the
Interface under pdev with the operating mode and MAC address of the adapter
and the new record, acquired one reference for WLAN_HDD_ID_OBJ_MGR, and left
the new Interface and its id in the slot, both stored under the slot lock. It
returns -ENOMEM when the allocation or the structural creation fails and the
mapped status when the acquisition fails. -/
theorem C8_create_and_store_vdev (P : Platform) (o : vdev_create_inputs) (w : World)
    (pdev : Nat) (adapter : hdd_adapter)
    (hE : P.ENOMEM ≠ 0)
    (hmap : ∀ s, QDF_IS_STATUS_ERROR s = true → P.qdf_status_to_os_return s ≠ 0) :
    ((hdd_objmgr_create_and_store_vdev P o w (some pdev) adapter).ret = 0
      ↔ (o.qdf_mem_malloc ≠ none ∧ o.wlan_objmgr_vdev_obj_create ≠ none
          ∧ QDF_IS_STATUS_ERROR o.wlan_objmgr_vdev_try_get_ref = false))
    ∧ (∀ rec v, o.qdf_mem_malloc = some rec → o.wlan_objmgr_vdev_obj_create = some v →
        QDF_IS_STATUS_ERROR o.wlan_objmgr_vdev_try_get_ref = false →
        (hdd_objmgr_create_and_store_vdev P o w (some pdev) adapter).trace
          = [Event.qdf_mem_malloc (some rec), Event.wlan_cfg80211_tdls_priv_init rec,
             Event.wlan_objmgr_vdev_obj_create pdev
               { opmode := adapter.device_mode, macaddr := adapter.mac_addr,
                 osifp := some rec } (some v),
             Event.wlan_objmgr_vdev_try_get_ref v wlan_objmgr_ref_dbgid.WLAN_HDD_ID_OBJ_MGR
               o.wlan_objmgr_vdev_try_get_ref,
             Event.qdf_spin_lock_bh,
             Event.adapter_vdev_store (some v),
             Event.wlan_vdev_get_id v,
             Event.adapter_session_id_store o.vdev_id,
             Event.qdf_spin_unlock_bh]
        ∧ (hdd_objmgr_create_and_store_vdev P o w (some pdev) adapter).adapter
            = { adapter with vdev := some v, session_id := o.vdev_id }
        ∧ objmgr_vdev_get_id v
            (hdd_objmgr_create_and_store_vdev P o w (some pdev) adapter).world.objs = o.vdev_id
        ∧ objmgr_find obj_kind.vdev v
            (hdd_objmgr_create_and_store_vdev P o w (some pdev) adapter).world.objs
          = some { kind := obj_kind.vdev, handle := v, logically_deleted := false,
                   refs := [wlan_objmgr_ref_dbgid.WLAN_HDD_ID_OBJ_MGR], ospriv := some rec,
                   vdev_id := o.vdev_id }
        ∧ (hdd_objmgr_create_and_store_vdev P o w (some pdev) adapter).world.heap
            = rec :: w.heap)
    ∧ ((o.qdf_mem_malloc = none ∨ o.wlan_objmgr_vdev_obj_create = none) →
        (hdd_objmgr_create_and_store_vdev P o w (some pdev) adapter).ret = -P.ENOMEM)
    ∧ (o.qdf_mem_malloc ≠ none → o.wlan_objmgr_vdev_obj_create ≠ none →
        QDF_IS_STATUS_ERROR o.wlan_objmgr_vdev_try_get_ref = true →
        (hdd_objmgr_create_and_store_vdev P o w (some pdev) adapter).ret
          = P.qdf_status_to_os_return o.wlan_objmgr_vdev_try_get_ref) := by
  cases hm : o.qdf_mem_malloc with
  | none => simp [hdd_objmgr_create_and_store_vdev, hdd_init_vdev_os_priv, hm, hE]
  | some rec =>
    cases hc : o.wlan_objmgr_vdev_obj_create with
    | none =>
      simp [hdd_objmgr_create_and_store_vdev, hdd_init_vdev_os_priv, hdd_deinit_vdev_os_priv,
        hm, hc, hE]
    | some v =>
      by_cases hs : QDF_IS_STATUS_ERROR o.wlan_objmgr_vdev_try_get_ref = true
      · simp [hdd_objmgr_create_and_store_vdev, hdd_init_vdev_os_priv,
          hdd_deinit_vdev_os_priv, hm, hc, hs, hmap _ hs]
      · simp [hdd_objmgr_create_and_store_vdev, hdd_init_vdev_os_priv, hm, hc, hs,
          objmgr_vdev_get_id, objmgr_find, objmgr_get_ref, objmgr_modify, objmgr_obj_create]

/-- C8 evaluated at a creation in which every step succeeds. -/
theorem C8_create_and_store_vdev_witness :
    (hdd_objmgr_create_and_store_vdev sample_platform vdev_create_ok sample_world (some 2)
        sample_adapter).ret = 0
    ∧ (hdd_objmgr_create_and_store_vdev sample_platform vdev_create_ok sample_world (some 2)
        sample_adapter).adapter
      = { vdev := some 5, session_id := 3, device_mode := 0, mac_addr := [2, 0, 0, 0, 0, 1] } :=
  ⟨(C8_create_and_store_vdev sample_platform vdev_create_ok sample_world 2 sample_adapter
      (by decide)
      (fun s h => by cases s <;> simp_all [sample_platform, QDF_IS_STATUS_ERROR])).1.2
      ⟨by decide, by decide, by decide⟩,
   ((C8_create_and_store_vdev sample_platform vdev_create_ok sample_world 2 sample_adapter
      (by decide)
      (fun s h => by cases s <;> simp_all [sample_platform, QDF_IS_STATUS_ERROR])).2.1
      200 5 rfl rfl (by decide)).2.1⟩

/-- C4, as stated, fails: with a transient reference of a consumer still
outstanding on the published Interface, the teardown detaches and frees the
integration record and requests the delete of the structural object; the
object itself leaves the pool only when the consumer returns its reference. -/
theorem C4_counterexample :
    held_vdev.vdev = some 5
    ∧ objmgr_find obj_kind.vdev 5 held_vdev.world.objs
      = some { kind := obj_kind.vdev, handle := 5, logically_deleted := false,
               refs := [wlan_objmgr_ref_dbgid.WLAN_OSIF_ID,
                        wlan_objmgr_ref_dbgid.WLAN_HDD_ID_OBJ_MGR],
               ospriv := some 200, vdev_id := 3 }
    ∧ (hdd_objmgr_release_and_destroy_vdev sample_platform QDF_STATUS.QDF_STATUS_SUCCESS
        held_vdev.world published_vdev.adapter).trace
      = [Event.qdf_spin_lock_bh, Event.adapter_vdev_load (some 5),
         Event.adapter_vdev_store none, Event.adapter_session_id_store 255,
         Event.qdf_spin_unlock_bh,
         Event.wlan_vdev_get_ospriv 5, Event.wlan_vdev_reset_ospriv 5,
         Event.wlan_cfg80211_tdls_priv_deinit 200, Event.qdf_mem_free (some 200),
         Event.wlan_objmgr_vdev_obj_delete 5,
         Event.wlan_objmgr_vdev_release_ref 5 wlan_objmgr_ref_dbgid.WLAN_HDD_ID_OBJ_MGR]
    ∧ held_vdev.world.heap = [200]
    ∧ (hdd_objmgr_release_and_destroy_vdev sample_platform QDF_STATUS.QDF_STATUS_SUCCESS
        held_vdev.world published_vdev.adapter).world.heap = []
    ∧ objmgr_find obj_kind.vdev 5
        (hdd_objmgr_release_and_destroy_vdev sample_platform QDF_STATUS.QDF_STATUS_SUCCESS
          held_vdev.world published_vdev.adapter).world.objs
      = some { kind := obj_kind.vdev, handle := 5, logically_deleted := true,
               refs := [wlan_objmgr_ref_dbgid.WLAN_OSIF_ID],
               ospriv := none, vdev_id := 3 }
    ∧ objmgr_find obj_kind.vdev 5
        (__hdd_objmgr_put_vdev
          (hdd_objmgr_release_and_destroy_vdev sample_platform QDF_STATUS.QDF_STATUS_SUCCESS
            held_vdev.world published_vdev.adapter).world (some 5)).world.objs
      = none := by
  refine ⟨by decide, by decide, by decide, by decide, by decide, by decide, by decide⟩

/-- C4, amended: the Interface teardown does not wait for transient
references. On a non-empty slot it detaches the integration record, frees it
when there is one, requests the delete of the structural object and releases
the reference of WLAN_HDD_ID_OBJ_MGR, whatever references are outstanding. It
releases no other reference: every object on which a WLAN_OSIF_ID reference
is outstanding stays in the pool with as many of them as before. -/
theorem C4_teardown_does_not_wait (P : Platform) (st : QDF_STATUS) (w : World)
    (adapter : hdd_adapter) (v : Nat) (h : adapter.vdev = some v) :
    phases (hdd_objmgr_release_and_destroy_vdev P st w adapter).trace
      = (match objmgr_get_ospriv obj_kind.vdev v w.objs with
         | some _ => [Phase.detach, Phase.hook, Phase.free, Phase.delete, Phase.release]
         | none => [Phase.detach, Phase.delete, Phase.release])
    ∧ Event.wlan_vdev_reset_ospriv v ∈ (hdd_objmgr_release_and_destroy_vdev P st w adapter).trace
    ∧ Event.wlan_objmgr_vdev_obj_delete v
        ∈ (hdd_objmgr_release_and_destroy_vdev P st w adapter).trace
    ∧ (∀ rec, objmgr_get_ospriv obj_kind.vdev v w.objs = some rec →
        Event.qdf_mem_free (some rec)
          ∈ (hdd_objmgr_release_and_destroy_vdev P st w adapter).trace
        ∧ (hdd_objmgr_release_and_destroy_vdev P st w adapter).world.heap = w.heap.erase rec)
    ∧ (hdd_objmgr_release_and_destroy_vdev P st w adapter).trace.filter
          (fun e => decide (teardown_phase e = some Phase.release))
        = [Event.wlan_objmgr_vdev_release_ref v wlan_objmgr_ref_dbgid.WLAN_HDD_ID_OBJ_MGR]
    ∧ (∀ e ∈ w.objs, 0 < e.refs.count wlan_objmgr_ref_dbgid.WLAN_OSIF_ID →
        ∃ e2 ∈ (hdd_objmgr_release_and_destroy_vdev P st w adapter).world.objs,
          e2.kind = e.kind ∧ e2.handle = e.handle
          ∧ e2.refs.count wlan_objmgr_ref_dbgid.WLAN_OSIF_ID
              = e.refs.count wlan_objmgr_ref_dbgid.WLAN_OSIF_ID) := by
  have hobjs : (hdd_objmgr_release_and_destroy_vdev P st w adapter).world.objs
      = objmgr_release_ref obj_kind.vdev v wlan_objmgr_ref_dbgid.WLAN_HDD_ID_OBJ_MGR
          (objmgr_obj_delete obj_kind.vdev v (objmgr_reset_ospriv obj_kind.vdev v w.objs)) := by
    cases ho : objmgr_get_ospriv obj_kind.vdev v w.objs with
    | none => simp [hdd_objmgr_release_and_destroy_vdev, h, ho, hdd_deinit_vdev_os_priv]
    | some rec => simp [hdd_objmgr_release_and_destroy_vdev, h, ho, hdd_deinit_vdev_os_priv]
  refine ⟨?_, ?_, ?_, ?_, ?_, ?_⟩
  · cases ho : objmgr_get_ospriv obj_kind.vdev v w.objs with
    | none =>
      simp [hdd_objmgr_release_and_destroy_vdev, h, ho, hdd_deinit_vdev_os_priv, phases,
        teardown_phase]
    | some rec =>
      simp [hdd_objmgr_release_and_destroy_vdev, h, ho, hdd_deinit_vdev_os_priv, phases,
        teardown_phase]
  · simp [hdd_objmgr_release_and_destroy_vdev, h]
  · simp [hdd_objmgr_release_and_destroy_vdev, h]
  · intro rec ho
    simp [hdd_objmgr_release_and_destroy_vdev, h, ho, hdd_deinit_vdev_os_priv]
  · cases ho : objmgr_get_ospriv obj_kind.vdev v w.objs with
    | none =>
      simp [hdd_objmgr_release_and_destroy_vdev, h, ho, hdd_deinit_vdev_os_priv,
        teardown_phase]
    | some rec =>
      simp [hdd_objmgr_release_and_destroy_vdev, h, ho, hdd_deinit_vdev_os_priv,
        teardown_phase]
  · intro e he hpos
    rw [hobjs]
    obtain ⟨e1, m1, k1, h1, c1⟩ := objmgr_reset_ospriv_keeps obj_kind.vdev v w.objs e he hpos
    obtain ⟨e2, m2, k2, h2, c2⟩ :=
      objmgr_obj_delete_keeps obj_kind.vdev v _ e1 m1 (by omega)
    obtain ⟨e3, m3, k3, h3, c3⟩ :=
      objmgr_release_hdd_keeps obj_kind.vdev v _ e2 m2 (by omega)
    exact ⟨e3, m3, by rw [k3, k2, k1], by rw [h3, h2, h1], by omega⟩

/-- C4 evaluated at the published Interface with a transient reference outstanding. -/
theorem C4_teardown_does_not_wait_witness :
    phases (hdd_objmgr_release_and_destroy_vdev sample_platform QDF_STATUS.QDF_STATUS_SUCCESS
        held_vdev.world published_vdev.adapter).trace
      = (match objmgr_get_ospriv obj_kind.vdev 5 held_vdev.world.objs with
         | some _ => [Phase.detach, Phase.hook, Phase.free, Phase.delete, Phase.release]
         | none => [Phase.detach, Phase.delete, Phase.release]) :=
  (C4_teardown_does_not_wait sample_platform QDF_STATUS.QDF_STATUS_SUCCESS held_vdev.world
      published_vdev.adapter 5 (by decide)).1

/-- C5, as stated, fails: the teardown of a published Interface detaches the
integration record before it runs the detach hook of the record, so its
steps are not in the order hooks, detach, free, delete, release. -/
theorem C5_counterexample :
    phases (hdd_objmgr_release_and_destroy_vdev sample_platform QDF_STATUS.QDF_STATUS_SUCCESS
        published_vdev.world published_vdev.adapter).trace
      = [Phase.detach, Phase.hook, Phase.free, Phase.delete, Phase.release]
    ∧ claimed_teardown_order
        (phases (hdd_objmgr_release_and_destroy_vdev sample_platform
          QDF_STATUS.QDF_STATUS_SUCCESS published_vdev.world published_vdev.adapter).trace)
      = false
    ∧ (hdd_objmgr_release_and_destroy_vdev sample_platform QDF_STATUS.QDF_STATUS_SUCCESS
        published_vdev.world published_vdev.adapter).trace.indexOf
          (Event.wlan_vdev_reset_ospriv 5)
      < (hdd_objmgr_release_and_destroy_vdev sample_platform QDF_STATUS.QDF_STATUS_SUCCESS
        published_vdev.world published_vdev.adapter).trace.indexOf
          (Event.wlan_cfg80211_tdls_priv_deinit 200) := by
  refine ⟨by decide, by decide, by decide⟩

/-- C5, amended: on a non-empty slot the Device teardown runs the detach
hooks, detaches and frees the integration record, deletes the structural
object once and releases the reference of WLAN_HDD_ID_OBJ_MGR once, in that
order. The Interface teardown, after emptying the slot, detaches the record
first, then runs the detach hook of the record and frees it (both only when a
record was attached; the fatal assertion fires otherwise), then deletes once
and releases once. The Root teardown deletes, then releases. -/
theorem C5_teardown_sequence (P : Platform) (st : QDF_STATUS) (w : World)
    (hdd_ctx : hdd_context) (adapter : hdd_adapter) :
    (∀ pdev, hdd_ctx.pdev = some pdev →
      (hdd_objmgr_release_and_destroy_pdev P st w hdd_ctx).trace
        = [Event.target_if_free_pdev_tgt_info pdev,
           Event.os_if_spectral_netlink_deinit pdev,
           Event.wlan_cfg80211_scan_priv_deinit pdev,
           Event.wlan_pdev_get_ospriv pdev,
           Event.wlan_pdev_reset_ospriv pdev,
           Event.qdf_mem_free (objmgr_get_ospriv obj_kind.pdev pdev w.objs),
           Event.wlan_objmgr_pdev_obj_delete pdev,
           Event.wlan_objmgr_pdev_release_ref pdev wlan_objmgr_ref_dbgid.WLAN_HDD_ID_OBJ_MGR]
      ∧ claimed_teardown_order
          (phases (hdd_objmgr_release_and_destroy_pdev P st w hdd_ctx).trace) = true)
    ∧ (∀ vdev rec, adapter.vdev = some vdev →
        objmgr_get_ospriv obj_kind.vdev vdev w.objs = some rec →
      (hdd_objmgr_release_and_destroy_vdev P st w adapter).trace
        = [Event.qdf_spin_lock_bh, Event.adapter_vdev_load (some vdev),
           Event.adapter_vdev_store none,
           Event.adapter_session_id_store P.HDD_SESSION_ID_INVALID,
           Event.qdf_spin_unlock_bh,
           Event.wlan_vdev_get_ospriv vdev,
           Event.wlan_vdev_reset_ospriv vdev,
           Event.wlan_cfg80211_tdls_priv_deinit rec,
           Event.qdf_mem_free (some rec),
           Event.wlan_objmgr_vdev_obj_delete vdev,
           Event.wlan_objmgr_vdev_release_ref vdev wlan_objmgr_ref_dbgid.WLAN_HDD_ID_OBJ_MGR])
    ∧ (∀ vdev, adapter.vdev = some vdev →
        objmgr_get_ospriv obj_kind.vdev vdev w.objs = none →
      (hdd_objmgr_release_and_destroy_vdev P st w adapter).trace
        = [Event.qdf_spin_lock_bh, Event.adapter_vdev_load (some vdev),
           Event.adapter_vdev_store none,
           Event.adapter_session_id_store P.HDD_SESSION_ID_INVALID,
           Event.qdf_spin_unlock_bh,
           Event.wlan_vdev_get_ospriv vdev,
           Event.wlan_vdev_reset_ospriv vdev,
           Event.QDF_BUG,
           Event.wlan_objmgr_vdev_obj_delete vdev,
           Event.wlan_objmgr_vdev_release_ref vdev wlan_objmgr_ref_dbgid.WLAN_HDD_ID_OBJ_MGR])
    ∧ (∀ psoc, hdd_ctx.psoc = some psoc →
      (hdd_objmgr_release_and_destroy_psoc P st w hdd_ctx).trace
        = [Event.wlan_objmgr_print_ref_all_objects_per_psoc psoc,
           Event.wlan_objmgr_psoc_obj_delete psoc,
           Event.wlan_objmgr_psoc_release_ref psoc wlan_objmgr_ref_dbgid.WLAN_HDD_ID_OBJ_MGR]
      ∧ phases (hdd_objmgr_release_and_destroy_psoc P st w hdd_ctx).trace
          = [Phase.delete, Phase.release]) := by
  refine ⟨?_, ?_, ?_, ?_⟩
  · intro pdev h
    simp [hdd_objmgr_release_and_destroy_pdev, h, hdd_deinit_pdev_os_priv, phases,
      teardown_phase, claimed_teardown_order]
  · intro vdev rec h ho
    simp [hdd_objmgr_release_and_destroy_vdev, h, ho, hdd_deinit_vdev_os_priv]
  · intro vdev h ho
    simp [hdd_objmgr_release_and_destroy_vdev, h, ho, hdd_deinit_vdev_os_priv]
  · intro psoc h
    simp [hdd_objmgr_release_and_destroy_psoc, h, phases, teardown_phase]

/-- C5 evaluated at the Root and the published Interface. -/
theorem C5_teardown_sequence_witness :
    phases (hdd_objmgr_release_and_destroy_psoc sample_platform QDF_STATUS.QDF_STATUS_SUCCESS
        published_vdev.world sample_ctx).trace = [Phase.delete, Phase.release]
    ∧ (hdd_objmgr_release_and_destroy_vdev sample_platform QDF_STATUS.QDF_STATUS_SUCCESS
        published_vdev.world published_vdev.adapter).trace
      = [Event.qdf_spin_lock_bh, Event.adapter_vdev_load (some 5),
         Event.adapter_vdev_store none,
         Event.adapter_session_id_store sample_platform.HDD_SESSION_ID_INVALID,
         Event.qdf_spin_unlock_bh,
         Event.wlan_vdev_get_ospriv 5,
         Event.wlan_vdev_reset_ospriv 5,
         Event.wlan_cfg80211_tdls_priv_deinit 200,
         Event.qdf_mem_free (some 200),
         Event.wlan_objmgr_vdev_obj_delete 5,
         Event.wlan_objmgr_vdev_release_ref 5 wlan_objmgr_ref_dbgid.WLAN_HDD_ID_OBJ_MGR] :=
  ⟨((C5_teardown_sequence sample_platform QDF_STATUS.QDF_STATUS_SUCCESS published_vdev.world
      sample_ctx published_vdev.adapter).2.2.2 1 rfl).2,
   (C5_teardown_sequence sample_platform QDF_STATUS.QDF_STATUS_SUCCESS published_vdev.world
      sample_ctx published_vdev.adapter).2.1 5 200 (by decide) (by decide)⟩

end HddObjmgr
